import Mathlib

/-!
Verification of the Infoclinica MIS integration client
(`examples/mis-integration/mis_integration.py`).

Python strings are modelled as `List Char` (`PyStr`); `st` turns a Lean
string literal into this representation.  XML documents are modelled by the
nested inductive `XElem`, mirroring `xml.etree.ElementTree.Element`
restricted to what the client uses: tag, text (the character data between
the start tag and the first child, `None` when empty) and the child list.
Attributes and tail text are not represented because no code path of the
client reads them.  Character/entity references are not modelled; all
concrete documents used below are entity-free and the round-trip theorems
restrict field values to entity-free text.
-/

/-- Model of a Python `str`: a list of characters. -/
abbrev PyStr := List Char

/-- Embed a Lean string literal as a `PyStr`. -/
def st (s : String) : PyStr := s.data

/-- Model of `xml.etree.ElementTree.Element`: tag, text, children. -/
inductive XElem where
  | mk (tag : PyStr) (text : Option PyStr) (children : List XElem)

/-- Tag of an element. -/
def XElem.tag : XElem → PyStr
  | .mk t _ _ => t

/-- Text of an element (`None` when the element has no character data
before its first child, as in ElementTree). -/
def XElem.text : XElem → Option PyStr
  | .mk _ x _ => x

/-- Children of an element. -/
def XElem.children : XElem → List XElem
  | .mk _ _ cs => cs

mutual

/-- All elements matching `root.findall(".//TAG")`: every element of the
tree that is a proper descendant of the root and has the given tag, in
document (preorder) order. -/
def findAllE (e : XElem) (t : PyStr) : List XElem :=
  match e with
  | .mk _ _ cs => findAllL cs t

/-- `findAllE` lifted to a list of sibling subtrees. -/
def findAllL (l : List XElem) (t : PyStr) : List XElem :=
  match l with
  | [] => []
  | c :: cs => (if c.tag = t then [c] else []) ++ findAllE c t ++ findAllL cs t

end

/-- `elem.text or ""`: the text content ElementTree's `findtext` reports
for a matched element. -/
def textOrEmpty (e : XElem) : PyStr := e.text.getD []

/-- Model of `root.findtext(".//TAG", default)`. -/
def findtextD (root : XElem) (t : PyStr) (dflt : PyStr) : PyStr :=
  match findAllE root t with
  | [] => dflt
  | e :: _ => textOrEmpty e

/-- Model of `root.findall(".//T1/T2")`: the `T2` children of every `T1`
descendant, in document order. -/
def findAllDD (root : XElem) (t1 t2 : PyStr) : List XElem :=
  (findAllE root t1).flatMap (fun a => a.children.filter (fun c => c.tag == t2))

/-- Model of `root.findtext(".//T1/T2", default)`. -/
def findtextDD (root : XElem) (t1 t2 : PyStr) (dflt : PyStr) : PyStr :=
  match findAllDD root t1 t2 with
  | [] => dflt
  | e :: _ => textOrEmpty e

/-- Model of Python `str.strip()` (whitespace at both ends removed). -/
def pyStrip (s : PyStr) : PyStr :=
  ((s.dropWhile Char.isWhitespace).reverse.dropWhile Char.isWhitespace).reverse

/-- Numeric value of a list of decimal digit characters. -/
def natOfDigits (ds : PyStr) : Nat :=
  ds.foldl (fun a c => 10 * a + (c.toNat - '0'.toNat)) 0

/-- Model of Python `int(str)` on the strings this protocol produces:
surrounding whitespace stripped, optional sign, then a non-empty run of
decimal digits; `none` models `ValueError`.  (Python's digit-group
underscores are not modelled; no response field uses them.) -/
def pyInt (s : PyStr) : Option Int :=
  match pyStrip s with
  | '-' :: ds => if ds ≠ [] ∧ ds.all Char.isDigit then some (-(natOfDigits ds : Int)) else none
  | '+' :: ds => if ds ≠ [] ∧ ds.all Char.isDigit then some (natOfDigits ds) else none
  | ds => if ds ≠ [] ∧ ds.all Char.isDigit then some (natOfDigits ds) else none

/-- Model of `_check_msa`: reads `.//MSA.1` (default `""`) and succeeds
exactly when it equals `"AA"`; the detail `MSA.3` is only printed. -/
def check_msa (root : XElem) : Bool :=
  findtextD root (st "MSA.1") [] = st "AA"

/-- Model of `_spresult`: reads `.//OUT/SPRESULT` with default `"-999"`,
applies `or -999` for the empty string and converts with `int` (a failing
conversion, Python `ValueError`, is `none`); the comment is
`.//OUT/SPCOMMENT` with default `""`. -/
def spresult (root : XElem) (outTag : PyStr) : Option (Int × PyStr) :=
  let s := findtextDD root outTag (st "SPRESULT") (st "-999")
  let r := if s = [] then some (-999 : Int) else pyInt s
  match r with
  | none => none
  | some v => some (v, findtextDD root outTag (st "SPCOMMENT") [])

/-- A Python dict with string keys and values, as its ordered entry list. -/
abbrev PyDict := List (PyStr × PyStr)

/-- Insertion in Python dict semantics: an existing key keeps its position
and gets the new value; a new key is appended. -/
def dictInsert (d : PyDict) (k v : PyStr) : PyDict :=
  match d with
  | [] => [(k, v)]
  | (k0, v0) :: rest =>
    if k0 = k then (k0, v) :: rest else (k0, v0) :: dictInsert rest k v

/-- The dict built from a list of pairs in order (dict comprehension). -/
def dictOfPairs (l : List (PyStr × PyStr)) : PyDict :=
  l.foldl (fun d kv => dictInsert d kv.1 kv.2) []

/-- Lookup in a `PyDict` (keys are unique by construction). -/
def dictGet (d : PyDict) (k : PyStr) : Option PyStr :=
  match d with
  | [] => none
  | (k0, v0) :: rest => if k0 = k then some v0 else dictGet rest k

/-- The record built from one `CLIENT_CHANGE_INFO` node:
`{child.tag: (child.text or "").strip() for child in node}`. -/
def changeRecordOf (node : XElem) : PyDict :=
  dictOfPairs (node.children.map (fun c => (c.tag, pyStrip (textOrEmpty c))))

/-- Response processing of `clients_change_list` on a parsed document:
check `MSA.1`, extract `SPRESULT`/`SPCOMMENT` from
`CLIENTS_CHANGE_LIST_OUT`, and collect the `CLIENT_CHANGE_INFO` records
only when both succeed; `none` models the `ValueError` escape of `int`. -/
def clients_change_list_run (root : XElem) : Option (List PyDict) :=
  let ok := check_msa root
  match spresult root (st "CLIENTS_CHANGE_LIST_OUT") with
  | none => none
  | some (result, _comment) =>
    some (if ok = true ∧ result = 1
          then (findAllE root (st "CLIENT_CHANGE_INFO")).map changeRecordOf
          else [])

/-- Response processing of `client_add` on a parsed document: extract
`SPRESULT`/`SPCOMMENT` from `CLIENT_ADD_OUT` and read
`.//CLIENT_ADD_OUT/PCODE` (default `""`) unconditionally; the returned
triple is `(pcode, spresult, spcomment)`.  `check_msa` is also called by
the source, but its value only gates console output. -/
def client_add_run (root : XElem) : Option (PyStr × Int × PyStr) :=
  match spresult root (st "CLIENT_ADD_OUT") with
  | none => none
  | some (r, c) => some (findtextDD root (st "CLIENT_ADD_OUT") (st "PCODE") [], r, c)

/-- Word character of the regex `\w` (ASCII range, as used here). -/
def isWordChar (c : Char) : Bool := c.isAlphanum ∨ c = '_'

/-- Scanner state for the namespace-stripping regex
`\s+xmlns(?::\w+)?="[^"]*"` of `_send_request`.  Each state carries the
characters consumed by the candidate match so far (`buf`), so that they
can be emitted unchanged when the candidate fails. -/
inductive SState where
  | idle
  | ws (buf : PyStr)
  | lit (buf : PyStr) (rem : PyStr)
  | afterx (buf : PyStr)
  | word1 (buf : PyStr)
  | word (buf : PyStr)
  | quo (buf : PyStr)
  | url (buf : PyStr)

/-- Pending characters of a scanner state. -/
def SState.buf : SState → PyStr
  | .idle => []
  | .ws b => b
  | .lit b _ => b
  | .afterx b => b
  | .word1 b => b
  | .word b => b
  | .quo b => b
  | .url b => b

/-- Restart after a failed candidate match: the buffered characters are
emitted and the current character is reconsidered from scratch.  (No
candidate can restart inside the buffer: a match must begin with
whitespace, and every buffered position either lies in the whitespace run
already tried or holds a non-whitespace character.) -/
def sFail (buf : PyStr) (c : Char) : PyStr × SState :=
  if c.isWhitespace then (buf, .ws [c]) else (buf ++ [c], .idle)

/-- One step of the namespace-stripping scanner: returns the characters
emitted by this step and the next state. -/
def sstep (s : SState) (c : Char) : PyStr × SState :=
  match s with
  | .idle => if c.isWhitespace then ([], .ws [c]) else ([c], .idle)
  | .ws b =>
    if c.isWhitespace then ([], .ws (b ++ [c]))
    else if c = 'x' then ([], .lit (b ++ [c]) (st "mlns"))
    else sFail b c
  | .lit b rem =>
    match rem with
    | [] => sFail b c
    | r :: rs =>
      if c = r then
        if rs = [] then ([], .afterx (b ++ [c])) else ([], .lit (b ++ [c]) rs)
      else sFail b c
  | .afterx b =>
    if c = ':' then ([], .word1 (b ++ [c]))
    else if c = '=' then ([], .quo (b ++ [c]))
    else sFail b c
  | .word1 b => if isWordChar c then ([], .word (b ++ [c])) else sFail b c
  | .word b =>
    if isWordChar c then ([], .word (b ++ [c]))
    else if c = '=' then ([], .quo (b ++ [c]))
    else sFail b c
  | .quo b => if c = '"' then ([], .url (b ++ [c])) else sFail b c
  | .url b => if c = '"' then ([], .idle) else ([], .url (b ++ [c]))

/-- Run the namespace-stripping scanner; at end of input a pending
candidate is emitted unchanged (the regex finds no further match). -/
def stripRun (s : SState) (cs : PyStr) : PyStr :=
  match cs with
  | [] => s.buf
  | c :: rest =>
    match sstep s c with
    | (out, s2) => out ++ stripRun s2 rest

/-- Model of `re.sub(r'\s+xmlns(?::\w+)?="[^"]*"', '', xml_str)` applied
by `_send_request` before parsing. -/
def stripXmlns (s : PyStr) : PyStr := stripRun .idle s

/-- Classification of the characters between `<` and `>`. -/
inductive TagKind where
  | pi
  | opTag (t : PyStr)
  | clTag (t : PyStr)
  | scTag (t : PyStr)

/-- Tag name: the characters up to the first whitespace (anything after,
i.e. attributes, is irrelevant to the lookups the client performs). -/
def nameOf (acc : PyStr) : PyStr := acc.takeWhile (fun c => ¬ c.isWhitespace)

/-- Classify a tag body: XML declarations / processing instructions and
comments produce no element; `/...` closes; a trailing `/` self-closes;
anything else opens. -/
def classifyTag (acc : PyStr) : TagKind :=
  match acc with
  | [] => .opTag []
  | c :: rest =>
    if c = '?' ∨ c = '!' then .pi
    else if c = '/' then .clTag (nameOf rest)
    else if (c :: rest).getLast? = some '/' then .scTag (nameOf (c :: rest).dropLast)
    else .opTag (nameOf (c :: rest))

/-- A partially built element during parsing: tag, committed text, and
children in reverse order. -/
structure Frame where
  tag : PyStr
  text : Option PyStr
  rkids : List XElem

/-- Commit pending character data to a frame: it becomes the element text
only if it arrives before any child and is non-empty (ElementTree leaves
`text = None` otherwise); after the first child it is tail text, which
the client never reads and the model discards. -/
def addText (f : Frame) (pending : PyStr) : Frame :=
  if f.rkids.isEmpty ∧ f.text.isNone ∧ ¬ pending.isEmpty then
    { f with text := some pending } else f

/-- Append a completed child element to a frame. -/
def addChild (f : Frame) (e : XElem) : Frame :=
  { f with rkids := e :: f.rkids }

/-- Turn a finished frame into an element. -/
def closeFrame (f : Frame) : XElem := .mk f.tag f.text f.rkids.reverse

/-- Parser mode: collecting character data, or inside a `<...>` tag. -/
inductive PMode where
  | txt (pending : PyStr)
  | tag (pending : PyStr) (acc : PyStr)

/-- Character-level model of `ET.fromstring` for the attribute-free,
entity-free documents this client exchanges (the namespace attribute has
been stripped before parsing).  The stack carries a virtual bottom frame;
a well-formed document leaves exactly one completed root on it, with only
whitespace before and after.  `none` models `xml.etree.ElementTree.ParseError`. -/
def pRun : PyStr → PMode → List Frame → Option XElem
  | [], .txt pending, stk =>
    match stk with
    | [f] =>
      match f.rkids, f.text with
      | [root], t =>
        if pending.all Char.isWhitespace ∧ (t.getD []).all Char.isWhitespace
        then some root else none
      | _, _ => none
    | _ => none
  | [], .tag _ _, _ => none
  | c :: cs, .txt pending, stk =>
    if c = '<' then pRun cs (.tag pending []) stk
    else pRun cs (.txt (pending ++ [c])) stk
  | c :: cs, .tag pending acc, stk =>
    if c = '>' then
      match classifyTag acc, stk with
      | .pi, _ => pRun cs (.txt pending) stk
      | .opTag t, f :: fs => pRun cs (.txt []) (⟨t, none, []⟩ :: addText f pending :: fs)
      | .scTag t, f :: fs =>
        pRun cs (.txt []) (addChild (addText f pending) (.mk t none []) :: fs)
      | .clTag t, f :: g :: fs =>
        if (addText f pending).tag = t then
          pRun cs (.txt []) (addChild g (closeFrame (addText f pending)) :: fs)
        else none
      | _, _ => none
    else if c = '<' then none
    else pRun cs (.tag pending (acc ++ [c])) stk

/-- Model of `ET.fromstring` (after namespace stripping). -/
def parseXml (s : PyStr) : Option XElem :=
  pRun s (.txt []) [⟨[], none, []⟩]

/-- Python `str(i)` for an `int`, as interpolated by an f-string. -/
def intStr (i : Int) : PyStr := (toString i).data

/-- Configuration constant `EXTERNAL_SYSTEM_ID`. -/
def EXTERNAL_SYSTEM_ID : PyStr := st "CRM_IDEAV"

/-- Configuration constant `CLINIC_HOST`. -/
def CLINIC_HOST : PyStr := st "demo.infoclinica.ru"

/-- `filial_tag` of `_build_msh_xml`:
`f"<MSH.99>{filial_id}</MSH.99>" if filial_id is not None else ""`. -/
def filialTag : Option Int → PyStr
  | some b => st "<MSH.99>" ++ intStr b ++ st "</MSH.99>"
  | none => []

/-- Model of `_build_msh_xml`.  The nondeterministic `_now_ts()` and
`_msg_id()` results are passed in as parameters `ts` and `mid`.  The
string is the f-string of the source, written as a concatenation of its
literal chunks and interpolated values. -/
def buildMshXml (msgType : PyStr) (filial : Option Int) (ts mid : PyStr) : PyStr :=
  st "<MSH>" ++ st "\n    " ++
  st "<MSH.3>" ++ EXTERNAL_SYSTEM_ID ++ st "</MSH.3>" ++ st "\n    " ++
  st "<MSH.7>" ++ st "<TS.1>" ++ ts ++ st "</TS.1>" ++ st "</MSH.7>" ++ st "\n    " ++
  st "<MSH.9>" ++ st "\n        " ++
  st "<MSG.1>" ++ st "WEB" ++ st "</MSG.1>" ++ st "\n        " ++
  st "<MSG.2>" ++ msgType ++ st "</MSG.2>" ++ st "\n    " ++
  st "</MSH.9>" ++ st "\n    " ++
  st "<MSH.10>" ++ mid ++ st "</MSH.10>" ++ st "\n    " ++
  st "<MSH.18>" ++ st "UTF-8" ++ st "</MSH.18>" ++ st "\n    " ++
  filialTag filial ++ st "\n" ++ st "</MSH>"

-- Faithfulness check of the chunked transcription against the literal
-- f-string text of `_build_msh_xml`.
set_option maxRecDepth 20000 in
example :
    buildMshXml (st "CLIENT_ADD") (some 7) (st "20240101000000") (st "m") =
    st "<MSH>\n    <MSH.3>CRM_IDEAV</MSH.3>\n    <MSH.7><TS.1>20240101000000</TS.1></MSH.7>\n    <MSH.9>\n        <MSG.1>WEB</MSG.1>\n        <MSG.2>CLIENT_ADD</MSG.2>\n    </MSH.9>\n    <MSH.10>m</MSH.10>\n    <MSH.18>UTF-8</MSH.18>\n    <MSH.99>7</MSH.99>\n</MSH>" := by
  decide

/-- A patient dictionary: `None` models an absent key. -/
abbrev Patient := PyStr → Option PyStr

/-- The body of `_opt` for a value already looked up:
`f"<{key}>{val}</{key}>" if val else ""`. -/
def optStr (k v : PyStr) : PyStr :=
  if v = [] then [] else st "<" ++ k ++ st ">" ++ v ++ st "</" ++ k ++ st ">"

/-- Model of the closure `_opt` of `client_add`:
`val = patient.get(key, "")`, then `optStr`. -/
def pyOpt (p : Patient) (k : PyStr) : PyStr := optStr k ((p k).getD [])

/-- Model of the `CLIENT_ADD` request body of `client_add`: `none` models
the `KeyError` raised while evaluating the f-string when a required key
(`LASTNAME`, `FIRSTNAME`, `BDATE`) is missing; no request is sent in that
case.  As in `_build_msh_xml`, `ts` and `mid` stand for `_now_ts()` and
`_msg_id()`. -/
def client_add_body (ts mid : PyStr) (p : Patient) : Option PyStr :=
  match p (st "LASTNAME"), p (st "FIRSTNAME"), p (st "BDATE") with
  | some ln, some fn, some bd => some (
      st "<?xml version=\"1.0\" encoding=\"UTF-8\"?>" ++ st "\n" ++
      st "<WEB_CLIENT_ADD xmlns=\"http://sdsys.ru/\">" ++ st "\n    " ++
      buildMshXml (st "CLIENT_ADD") none ts mid ++ st "\n    " ++
      st "<CLIENT_ADD_IN>" ++ st "\n        " ++
      st "<LASTNAME>" ++ ln ++ st "</LASTNAME>" ++ st "\n        " ++
      st "<FIRSTNAME>" ++ fn ++ st "</FIRSTNAME>" ++ st "\n        " ++
      pyOpt p (st "MIDNAME") ++ st "\n        " ++
      pyOpt p (st "EMAIL") ++ st "\n        " ++
      pyOpt p (st "PHONE") ++ st "\n        " ++
      st "<BDATE>" ++ bd ++ st "</BDATE>" ++ st "\n        " ++
      pyOpt p (st "GENDER") ++ st "\n        " ++
      pyOpt p (st "SNILS") ++ st "\n        " ++
      pyOpt p (st "NSP") ++ st "\n        " ++
      pyOpt p (st "CHECKMODE") ++ st "\n        " ++
      pyOpt p (st "REFUSECALL") ++ st "\n        " ++
      pyOpt p (st "REFUSESMS") ++ st "\n    " ++
      st "</CLIENT_ADD_IN>" ++ st "\n" ++ st "</WEB_CLIENT_ADD>")
  | _, _, _ => none

/-- Model of the `CLIENTS_CHANGE_LIST` request body of
`clients_change_list`. -/
def change_list_body (ts mid : PyStr) (filial : Int) : PyStr :=
  st "<?xml version=\"1.0\" encoding=\"UTF-8\"?>" ++ st "\n" ++
  st "<WEB_CLIENTS_CHANGE_LIST xmlns=\"http://sdsys.ru/\">" ++ st "\n    " ++
  buildMshXml (st "CLIENTS_CHANGE_LIST") (some filial) ts mid ++ st "\n    " ++
  st "<CLIENTS_CHANGE_LIST_IN/>" ++ st "\n" ++ st "</WEB_CLIENTS_CHANGE_LIST>"

-- Faithfulness check of the chunked transcription of the CLIENT_ADD body
-- against the literal f-string text of `client_add`, on a patient with
-- some optional fields present and some absent.
set_option maxRecDepth 80000 in
example :
    client_add_body (st "20240101000000") (st "deadbeef") (fun k =>
      if k = st "LASTNAME" then some (st "Testov")
      else if k = st "FIRSTNAME" then some (st "Test")
      else if k = st "BDATE" then some (st "19900101")
      else if k = st "PHONE" then some (st "+79990000000")
      else none) =
    some (st "<?xml version=\"1.0\" encoding=\"UTF-8\"?>\n<WEB_CLIENT_ADD xmlns=\"http://sdsys.ru/\">\n    <MSH>\n    <MSH.3>CRM_IDEAV</MSH.3>\n    <MSH.7><TS.1>20240101000000</TS.1></MSH.7>\n    <MSH.9>\n        <MSG.1>WEB</MSG.1>\n        <MSG.2>CLIENT_ADD</MSG.2>\n    </MSH.9>\n    <MSH.10>deadbeef</MSH.10>\n    <MSH.18>UTF-8</MSH.18>\n    \n</MSH>\n    <CLIENT_ADD_IN>\n        <LASTNAME>Testov</LASTNAME>\n        <FIRSTNAME>Test</FIRSTNAME>\n        \n        \n        <PHONE>+79990000000</PHONE>\n        <BDATE>19900101</BDATE>\n        \n        \n        \n        \n        \n        \n    </CLIENT_ADD_IN>\n</WEB_CLIENT_ADD>") := by
  decide

-- Faithfulness check of the chunked transcription of the
-- CLIENTS_CHANGE_LIST body against the literal f-string text of
-- `clients_change_list`.
set_option maxRecDepth 80000 in
example :
    change_list_body (st "20240101000000") (st "deadbeef") 1 =
    st "<?xml version=\"1.0\" encoding=\"UTF-8\"?>\n<WEB_CLIENTS_CHANGE_LIST xmlns=\"http://sdsys.ru/\">\n    <MSH>\n    <MSH.3>CRM_IDEAV</MSH.3>\n    <MSH.7><TS.1>20240101000000</TS.1></MSH.7>\n    <MSH.9>\n        <MSG.1>WEB</MSG.1>\n        <MSG.2>CLIENTS_CHANGE_LIST</MSG.2>\n    </MSH.9>\n    <MSH.10>deadbeef</MSH.10>\n    <MSH.18>UTF-8</MSH.18>\n    <MSH.99>1</MSH.99>\n</MSH>\n    <CLIENTS_CHANGE_LIST_IN/>\n</WEB_CLIENTS_CHANGE_LIST>" := by
  decide

/-- The state of an `urllib.error.HTTPError` exception object: HTTP
status code and the underlying response stream, which can be read once
(`consumed` records whether `read()` has already drained it). -/
structure HTTPErrorExc where
  code : Nat
  bodyData : PyStr
  consumed : Bool

/-- `exc.read()`: returns the body on first call and the empty string
afterwards, leaving the stream consumed. -/
def httpRead (e : HTTPErrorExc) : PyStr × HTTPErrorExc :=
  (if e.consumed then [] else e.bodyData, { e with consumed := true })

/-- Outcome of the one `urlopen` attempt of `_send_request`. -/
inductive HttpOutcome where
  | success (raw : PyStr)
  | httpError (exc : HTTPErrorExc)
  | netFailure

/-- The exceptions a call can surface. -/
inductive PyError where
  | keyError
  | parseError
  | valueError
  | netError
  | httpExc (e : HTTPErrorExc)

/-- The `except urllib.error.HTTPError` branch of `_send_request`:
`raw = exc.read()` (then printed as a warning), then `raise` of the same
exception object; returns the printed body and the re-raised error. -/
def http_error_case (exc : HTTPErrorExc) : PyStr × PyError :=
  match httpRead exc with
  | (raw, exc2) => (raw, .httpExc exc2)

/-- Model of `_send_request` given the transport outcome: on success the
response text has its namespace declarations stripped and is parsed; an
HTTP error is read, logged and re-raised; parse failure is
`ET.ParseError`. -/
def send_request (o : HttpOutcome) : Except PyError XElem :=
  match o with
  | .success raw =>
    match parseXml (stripXmlns raw) with
    | some root => .ok root
    | none => .error .parseError
  | .httpError exc => .error (http_error_case exc).2
  | .netFailure => .error .netError

/-- Model of a full `clients_change_list` call: build the request, send
it to the given server (a function from request body to transport
outcome), and process the parsed response. -/
def clients_change_list_call (ts mid : PyStr) (filial : Int)
    (server : PyStr → HttpOutcome) : Except PyError (List PyDict) :=
  match send_request (server (change_list_body ts mid filial)) with
  | .error e => .error e
  | .ok root =>
    match clients_change_list_run root with
    | none => .error .valueError
    | some l => .ok l

/-- Model of a full `client_add` call: body construction can fail with
`KeyError` before anything is sent (the server oracle is not consulted in
that case); otherwise send and process as in the source. -/
def client_add_call (ts mid : PyStr) (p : Patient)
    (server : PyStr → HttpOutcome) : Except PyError (PyStr × Int × PyStr) :=
  match client_add_body ts mid p with
  | none => .error .keyError
  | some body =>
    match send_request (server body) with
    | .error e => .error e
    | .ok root =>
      match client_add_run root with
      | none => .error .valueError
      | some r => .ok r

/-- Concrete response document for C1: acknowledgment `"AE"`, result 0,
but a `CLIENT_ADD_OUT/PCODE` field is present. -/
def c1doc : XElem :=
  .mk (st "WEB_CLIENT_ADD") none
    [.mk (st "MSA") none [.mk (st "MSA.1") (some (st "AE")) []],
     .mk (st "CLIENT_ADD_OUT") none
       [.mk (st "SPRESULT") (some (st "0")) [],
        .mk (st "PCODE") (some (st "123")) []]]

/-- Concrete response document for C2's amended-claim witness: no
`MSA.1` field at all, result code 1. -/
def c2doc : XElem :=
  .mk (st "WEB_CLIENTS_CHANGE_LIST") none
    [.mk (st "CLIENTS_CHANGE_LIST_OUT") none
       [.mk (st "SPRESULT") (some (st "1")) []],
     .mk (st "CLIENT_CHANGE_INFO") none [.mk (st "PCODE") (some (st "5")) []]]

/-- Concrete response text for C2's counterexample: a well-formed
document whose acknowledgment status field is missing entirely. -/
def c2resp : PyStr :=
  st "<WEB_CLIENTS_CHANGE_LIST><MSA><MSA.3>err</MSA.3></MSA><CLIENTS_CHANGE_LIST_OUT><SPRESULT>1</SPRESULT></CLIENTS_CHANGE_LIST_OUT><CLIENT_CHANGE_INFO><PCODE>5</PCODE></CLIENT_CHANGE_INFO></WEB_CLIENTS_CHANGE_LIST>"

/-- Concrete response document for C3's witness: acknowledgment failed,
result code 1. -/
def c3doc : XElem :=
  .mk (st "WEB_CLIENTS_CHANGE_LIST") none
    [.mk (st "MSA") none [.mk (st "MSA.1") (some (st "AE")) []],
     .mk (st "CLIENTS_CHANGE_LIST_OUT") none
       [.mk (st "SPRESULT") (some (st "1")) []],
     .mk (st "CLIENT_CHANGE_INFO") none [.mk (st "PCODE") (some (st "5")) []]]

/-- Concrete HTTP error for C4: status 500 with a structured error body,
stream not yet consumed. -/
def c4exc : HTTPErrorExc := ⟨500, st "<ERROR>busy</ERROR>", false⟩

/-- Concrete response document for C7: the output section has a comment
but no `SPRESULT` field. -/
def c7doc : XElem :=
  .mk (st "WEB_CLIENTS_CHANGE_LIST") none
    [.mk (st "MSA") none [.mk (st "MSA.1") (some (st "AA")) []],
     .mk (st "CLIENTS_CHANGE_LIST_OUT") none
       [.mk (st "SPCOMMENT") (some (st "oops")) []]]

/-- Concrete successful change-list response document for C8's witness:
acknowledgment `"AA"`, result 1, three change events with padded field
values. -/
def c8doc : XElem :=
  .mk (st "WEB_CLIENTS_CHANGE_LIST") none
    [.mk (st "MSA") none [.mk (st "MSA.1") (some (st "AA")) []],
     .mk (st "CLIENTS_CHANGE_LIST_OUT") none
       [.mk (st "SPRESULT") (some (st "1")) [],
        .mk (st "SPCOMMENT") (some (st "ok")) []],
     .mk (st "CLIENT_CHANGE_INFO") none
       [.mk (st "CHANGEID") (some (st " 1 ")) [],
        .mk (st "PCODE") (some (st "10")) []],
     .mk (st "CLIENT_CHANGE_INFO") none
       [.mk (st "CHANGEID") (some (st "2\n")) [],
        .mk (st "LASTNAME") (some (st "  Ivanov")) []],
     .mk (st "CLIENT_CHANGE_INFO") none
       [.mk (st "CHANGEID") (some (st "3")) [],
        .mk (st "PCODE") none []]]

/-- Concrete patient for C10's witness: `BDATE` is missing. -/
def c10patient : Patient := fun k =>
  if k = st "LASTNAME" then some (st "Ivanov")
  else if k = st "FIRSTNAME" then some (st "Ivan")
  else none

/-- `None` for empty character data, as ElementTree stores element text. -/
def textOpt (v : PyStr) : Option PyStr := if v = [] then none else some v

/-- Text that passes through serialization and parsing unchanged: no tag
opener, no entity introducer, no quote (the quote only matters to the
namespace-stripping regex). -/
abbrev GoodText (s : PyStr) : Prop := ∀ c ∈ s, c ≠ '<' ∧ c ≠ '&' ∧ c ≠ '"'

/-- The characters element names of this protocol are made of. -/
def tagChars : PyStr :=
  st "ABCDEFGHIJKLMNOPQRSTUVWXYZabcdefghijklmnopqrstuvwxyz0123456789._"

/-- A well-formed element name of this protocol: non-empty, made of
alphanumeric characters, dots and underscores. -/
abbrev GoodName (t : PyStr) : Prop := t ≠ [] ∧ ∀ c ∈ t, c ∈ tagChars

/-- The element tree that parsing a built `MSH` header yields. -/
def mshTree (msgType : PyStr) (fo : Option Int) (ts mid : PyStr) : XElem :=
  .mk (st "MSH") (some (st "\n    "))
    ([.mk (st "MSH.3") (some EXTERNAL_SYSTEM_ID) [],
      .mk (st "MSH.7") none [.mk (st "TS.1") (textOpt ts) []],
      .mk (st "MSH.9") (some (st "\n        "))
        [.mk (st "MSG.1") (some (st "WEB")) [],
         .mk (st "MSG.2") (textOpt msgType) []],
      .mk (st "MSH.10") (textOpt mid) [],
      .mk (st "MSH.18") (some (st "UTF-8")) []] ++
     (match fo with
      | some b => [.mk (st "MSH.99") (some (intStr b)) []]
      | none => []))

/-- The child element an optional patient field contributes: none when
the value is absent or empty, else a single element carrying the value. -/
def optChild (p : Patient) (k : PyStr) : List XElem :=
  if (p k).getD [] = [] then [] else [.mk k (some ((p k).getD [])) []]

/-- The children of `CLIENT_ADD_IN` after parsing a built body. -/
def clientAddKids (p : Patient) (ln fn bd : PyStr) : List XElem :=
  [.mk (st "LASTNAME") (textOpt ln) [], .mk (st "FIRSTNAME") (textOpt fn) []] ++
  optChild p (st "MIDNAME") ++ optChild p (st "EMAIL") ++ optChild p (st "PHONE") ++
  [.mk (st "BDATE") (textOpt bd) []] ++
  optChild p (st "GENDER") ++ optChild p (st "SNILS") ++ optChild p (st "NSP") ++
  optChild p (st "CHECKMODE") ++ optChild p (st "REFUSECALL") ++ optChild p (st "REFUSESMS")

/-- The element tree of a parsed CLIENT_ADD body. -/
def clientAddTree (ts mid : PyStr) (p : Patient) (ln fn bd : PyStr) : XElem :=
  .mk (st "WEB_CLIENT_ADD") (some (st "\n    "))
    [mshTree (st "CLIENT_ADD") none ts mid,
     .mk (st "CLIENT_ADD_IN") (some (st "\n        ")) (clientAddKids p ln fn bd)]

/-- The required field names of CLIENT_ADD. -/
def reqKeys : List PyStr := [st "LASTNAME", st "FIRSTNAME", st "BDATE"]

/-- The optional field names of CLIENT_ADD. -/
def optKeys : List PyStr :=
  [st "MIDNAME", st "EMAIL", st "PHONE", st "GENDER", st "SNILS",
   st "NSP", st "CHECKMODE", st "REFUSECALL", st "REFUSESMS"]

/-- All values a patient supplies for protocol fields survive the
round trip (decidably checkable on a concrete patient). -/
abbrev PatientSafe (p : Patient) : Prop :=
  ∀ k ∈ reqKeys ++ optKeys, GoodText ((p k).getD [])

/-- Concrete patient for C5: the PHONE value smuggles an `EMAIL` element
into the serialized body although the EMAIL field is absent. -/
def c5patient : Patient := fun k =>
  if k = st "LASTNAME" then some (st "Ivanov")
  else if k = st "FIRSTNAME" then some (st "Ivan")
  else if k = st "BDATE" then some (st "19900101")
  else if k = st "PHONE" then some (st "<EMAIL>x</EMAIL>")
  else none

/-- Concrete patient for C9: the LASTNAME value `"<"` breaks the XML
well-formedness of the built body. -/
def c9patient : Patient := fun k =>
  if k = st "LASTNAME" then some (st "<")
  else if k = st "FIRSTNAME" then some (st "Ivan")
  else if k = st "BDATE" then some (st "19900101")
  else none

/-- Concrete XML-safe patient used by the C5 and C9 witnesses: required
fields present (FIRSTNAME empty), one optional field present, the rest
absent. -/
def goodPatient : Patient := fun k =>
  if k = st "LASTNAME" then some (st "Ivanov")
  else if k = st "FIRSTNAME" then some []
  else if k = st "BDATE" then some (st "19900101")
  else if k = st "GENDER" then some (st "1")
  else none

theorem dictInsert_notmem (d : PyDict) (k v : PyStr) (h : k ∉ d.map Prod.fst) :
    dictInsert d k v = d ++ [(k, v)] := by
  induction d with
  | nil => rfl
  | cons kv rest ih =>
    obtain ⟨k0, v0⟩ := kv
    simp only [List.map_cons, List.mem_cons] at h
    push_neg at h
    unfold dictInsert
    rw [if_neg (fun he => h.1 he.symm), ih h.2]
    simp

theorem dictOfPairs_foldl (l : List (PyStr × PyStr)) :
    ∀ d : PyDict, (((d ++ l).map Prod.fst).Nodup) →
      l.foldl (fun d kv => dictInsert d kv.1 kv.2) d = d ++ l := by
  induction l with
  | nil => intro d _; simp
  | cons kv rest ih =>
    intro d h
    obtain ⟨k, v⟩ := kv
    rw [List.map_append] at h
    have hk : k ∉ d.map Prod.fst := by
      intro hmem
      have hd := (List.nodup_append.mp h).2.2
      exact hd hmem (by simp)
    rw [List.foldl_cons, dictInsert_notmem d k v hk]
    have harr : ((d ++ [(k, v)]) ++ rest).map Prod.fst = (d ++ (k, v) :: rest).map Prod.fst := by
      simp
    have := ih (d ++ [(k, v)]) (by rw [harr, List.map_append]; exact h)
    rw [this, List.append_assoc]
    simp

theorem dictOfPairs_eq_self (l : List (PyStr × PyStr))
    (h : (l.map Prod.fst).Nodup) : dictOfPairs l = l := by
  have := dictOfPairs_foldl l [] (by simpa using h)
  simpa [dictOfPairs] using this

theorem dictGet_of_mem (l : PyDict) (hnd : (l.map Prod.fst).Nodup)
    (k v : PyStr) (h : (k, v) ∈ l) : dictGet l k = some v := by
  induction l with
  | nil => cases h
  | cons kv rest ih =>
    obtain ⟨k0, v0⟩ := kv
    rcases List.mem_cons.mp h with he | hm
    · obtain ⟨h1, h2⟩ := Prod.mk.injEq .. ▸ he
      unfold dictGet
      rw [if_pos h1.symm, h2]
    · rw [List.map_cons] at hnd
      have hnd2 := List.nodup_cons.mp hnd
      have hk0 : k0 ≠ k := by
        intro he0
        have hmm : k ∈ rest.map Prod.fst := List.mem_map_of_mem Prod.fst hm
        exact hnd2.1 (by rw [he0]; exact hmm)
      unfold dictGet
      rw [if_neg hk0]
      exact ih hnd2.2 hm

/-- C1 counterexample: on a parsed response with acknowledgment `"AE"`
and result code 0 that nevertheless carries a `CLIENT_ADD_OUT/PCODE`
field, `client_add` still returns the non-empty identifier `"123"`,
because `PCODE` is extracted unconditionally; the claim that a non-empty
identifier is returned only when the acknowledgment is `"AA"` and the
result code is 1 is therefore false. -/
theorem c1_counterexample :
    client_add_run c1doc = some (st "123", 0, []) ∧
    check_msa c1doc = false ∧ st "123" ≠ [] := by
  refine ⟨by decide, by decide, by decide⟩

/-- C1 (corrected): `client_add` returns as `pcode` the text of the
first `CLIENT_ADD_OUT/PCODE` field of the response, independent of the
acknowledgment status and result code; in particular, when the response
carries no such field the returned identifier is the empty string while
`spresult`/`spcomment` carry the failure information. -/
theorem c1_pcode_from_document (root : XElem) (p : PyStr) (r : Int) (c : PyStr)
    (h : client_add_run root = some (p, r, c)) :
    p = findtextDD root (st "CLIENT_ADD_OUT") (st "PCODE") [] ∧
    spresult root (st "CLIENT_ADD_OUT") = some (r, c) ∧
    (findAllDD root (st "CLIENT_ADD_OUT") (st "PCODE") = [] → p = []) := by
  cases hs : spresult root (st "CLIENT_ADD_OUT") with
  | none =>
    simp only [client_add_run, hs] at h
    exact Option.noConfusion h
  | some rc =>
    obtain ⟨r0, c0⟩ := rc
    simp only [client_add_run, hs, Option.some.injEq, Prod.mk.injEq] at h
    obtain ⟨h1, h2, h3⟩ := h
    subst h1 h2 h3
    refine ⟨rfl, rfl, ?_⟩
    intro hnone
    simp only [findtextDD, hnone]

/-- C1 witness: the corrected statement evaluated on `c1doc`. -/
theorem c1_witness :
    st "123" = findtextDD c1doc (st "CLIENT_ADD_OUT") (st "PCODE") [] ∧
    spresult c1doc (st "CLIENT_ADD_OUT") = some (0, []) ∧
    (findAllDD c1doc (st "CLIENT_ADD_OUT") (st "PCODE") = [] → st "123" = []) :=
  c1_pcode_from_document c1doc (st "123") 0 [] (by decide)

set_option maxRecDepth 200000 in
/-- C2 counterexample: a full change-list call against a server that
returns a well-formed response with no acknowledgment status field
(`MSA.1` absent) completes with the empty list; it does not fail with a
parse error (nor any other error). -/
theorem c2_counterexample :
    clients_change_list_call (st "20240101000000") (st "deadbeef") 1
      (fun _ => .success c2resp) = .ok [] := by
  rfl

/-- C2 (corrected): a response whose acknowledgment status field is
missing entirely is treated as an acknowledgment failure, not a parse
failure and not success: `_check_msa` returns false and the call
completes with the empty list. -/
theorem c2_missing_msa (root : XElem) (l : List PyDict)
    (hmsa : findAllE root (st "MSA.1") = []) :
    check_msa root = false ∧
    (clients_change_list_run root = some l → l = []) := by
  have hfx : findtextD root (st "MSA.1") [] = [] := by
    simp only [findtextD, hmsa]
  have hck : check_msa root = false := by
    simp only [check_msa, hfx]
    decide
  refine ⟨hck, ?_⟩
  intro h
  cases hs : spresult root (st "CLIENTS_CHANGE_LIST_OUT") with
  | none =>
    simp only [clients_change_list_run, hs] at h
    exact Option.noConfusion h
  | some rc =>
    obtain ⟨r0, c0⟩ := rc
    simp only [clients_change_list_run, hs, hck, Option.some.injEq] at h
    simp at h
    exact h

/-- C2 witness: the corrected statement evaluated on `c2doc` (result
code 1, `MSA.1` absent). -/
theorem c2_witness :
    check_msa c2doc = false ∧
    (clients_change_list_run c2doc = some [] → ([] : List PyDict) = []) :=
  c2_missing_msa c2doc [] rfl

/-- C3: confirmed.  Whenever result extraction succeeds on a parsed
change-list response, the call returns a list without raising; the list
is non-empty only if the acknowledgment is `"AA"` and the result code is
1, and for every other acknowledgment/result combination it is empty. -/
theorem c3_change_list_gating (root : XElem) (r : Int) (c : PyStr)
    (h : spresult root (st "CLIENTS_CHANGE_LIST_OUT") = some (r, c)) :
    ∃ l, clients_change_list_run root = some l ∧
      (l ≠ [] → check_msa root = true ∧ r = 1) ∧
      (¬ (check_msa root = true ∧ r = 1) → l = []) := by
  refine ⟨if check_msa root = true ∧ r = 1
          then (findAllE root (st "CLIENT_CHANGE_INFO")).map changeRecordOf
          else [], ?_, ?_, ?_⟩
  · simp only [clients_change_list_run, h]
  · intro hne
    by_contra hc
    rw [if_neg hc] at hne
    exact hne rfl
  · intro hc
    rw [if_neg hc]

/-- C3 witness: the statement evaluated on `c3doc` (acknowledgment
`"AE"`, result code 1, a change event present): the returned list is
empty. -/
theorem c3_witness :
    ∃ l, clients_change_list_run c3doc = some l ∧
      (l ≠ [] → check_msa c3doc = true ∧ (1 : Int) = 1) ∧
      (¬ (check_msa c3doc = true ∧ (1 : Int) = 1) → l = []) :=
  c3_change_list_gating c3doc 1 [] (by decide)

/-- C4 counterexample: for a non-2xx response the transport reads the
body and re-raises the same exception object; the error received by the
caller carries the status code but its body stream is already consumed,
so the caller reading it gets the empty string, not the body.  The claim
that the caller receiving the error can still inspect and parse the body
is therefore false. -/
theorem c4_counterexample :
    send_request (.httpError c4exc)
      = .error (.httpExc ⟨500, st "<ERROR>busy</ERROR>", true⟩) ∧
    (httpRead ⟨500, st "<ERROR>busy</ERROR>", true⟩).1 = [] ∧
    c4exc.bodyData ≠ [] := by
  refine ⟨rfl, rfl, by decide⟩

/-- C4 (corrected): on a non-2xx status the transport reads the response
body (the read value — which is printed as a warning — equals the full
body) and re-raises the error with the status code preserved; but the
re-raised exception's stream is exhausted, so a caller reading it
obtains the empty string rather than the body. -/
theorem c4_http_error_branch (exc : HTTPErrorExc) (h : exc.consumed = false) :
    http_error_case exc = (exc.bodyData, .httpExc { exc with consumed := true }) ∧
    send_request (.httpError exc) = .error (.httpExc { exc with consumed := true }) ∧
    ({ exc with consumed := true } : HTTPErrorExc).code = exc.code ∧
    (httpRead { exc with consumed := true }).1 = [] := by
  refine ⟨?_, ?_, rfl, by simp [httpRead]⟩
  · simp [http_error_case, httpRead, h]
  · simp [send_request, http_error_case, httpRead, h]

/-- C4 witness: the corrected statement evaluated on `c4exc`. -/
theorem c4_witness :
    http_error_case c4exc = (c4exc.bodyData, .httpExc { c4exc with consumed := true }) ∧
    send_request (.httpError c4exc) = .error (.httpExc { c4exc with consumed := true }) ∧
    ({ c4exc with consumed := true } : HTTPErrorExc).code = c4exc.code ∧
    (httpRead { c4exc with consumed := true }).1 = [] :=
  c4_http_error_branch c4exc rfl

/-- C7 counterexample: in a response whose output section lacks
`SPRESULT` but contains `SPCOMMENT`, result extraction returns the
sentinel code `-999` with the comment `"oops"`, not with an empty
comment; the claim that the comment is empty in that case is therefore
false. -/
theorem c7_counterexample :
    findAllDD c7doc (st "CLIENTS_CHANGE_LIST_OUT") (st "SPRESULT") = [] ∧
    spresult c7doc (st "CLIENTS_CHANGE_LIST_OUT") = some (-999, st "oops") ∧
    st "oops" ≠ [] := by
  refine ⟨rfl, by decide, by decide⟩

/-- C7 (corrected): when the named output section carries no `SPRESULT`
field, result extraction returns the sentinel code `-999` while the
comment is still taken from `SPCOMMENT` independently (empty only if
that is also absent); and payload extraction runs exactly when the
acknowledgment is `"AA"` and the extracted result code is 1 — any other
code, including the sentinel, and any code (even 1) with a failed
acknowledgment causes the payload extraction to be skipped. -/
theorem c7_sentinel_and_gating (root : XElem) (out : PyStr) :
    (findAllDD root out (st "SPRESULT") = [] →
      spresult root out = some (-999, findtextDD root out (st "SPCOMMENT") [])) ∧
    (∀ r c, spresult root (st "CLIENTS_CHANGE_LIST_OUT") = some (r, c) →
      clients_change_list_run root
        = some (if check_msa root = true ∧ r = 1
                then (findAllE root (st "CLIENT_CHANGE_INFO")).map changeRecordOf
                else [])) := by
  constructor
  · intro habs
    have hfx : findtextDD root out (st "SPRESULT") (st "-999") = st "-999" := by
      simp only [findtextDD, habs]
    have hone : (if st "-999" = [] then some (-999 : Int) else pyInt (st "-999"))
        = some (-999 : Int) := by decide
    simp only [spresult, hfx, hone]
  · intro r c h
    simp only [clients_change_list_run, h]

/-- C7 witness: the corrected statement evaluated on `c7doc` (output
section with `SPCOMMENT` `"oops"` and no `SPRESULT`). -/
theorem c7_witness :
    spresult c7doc (st "CLIENTS_CHANGE_LIST_OUT")
      = some (-999, findtextDD c7doc (st "CLIENTS_CHANGE_LIST_OUT") (st "SPCOMMENT") []) ∧
    clients_change_list_run c7doc
      = some (if check_msa c7doc = true ∧ (-999 : Int) = 1
              then (findAllE c7doc (st "CLIENT_CHANGE_INFO")).map changeRecordOf
              else []) :=
  ⟨(c7_sentinel_and_gating c7doc (st "CLIENTS_CHANGE_LIST_OUT")).1 rfl,
   (c7_sentinel_and_gating c7doc (st "CLIENTS_CHANGE_LIST_OUT")).2 (-999) (st "oops")
     (by decide)⟩

/-- C8: confirmed.  On a parsed response with acknowledgment `"AA"` and
result code 1, the change-list call returns exactly one record per
`CLIENT_CHANGE_INFO` element, in document order; and whenever the child
field names of an event are distinct, its record maps each child field
name to that child's text with surrounding whitespace stripped (a child
with no text maps to the empty string, since `child.text or ""` is used). -/
theorem c8_change_records (root : XElem) (c : PyStr)
    (hok : check_msa root = true)
    (hres : spresult root (st "CLIENTS_CHANGE_LIST_OUT") = some (1, c)) :
    clients_change_list_run root
      = some ((findAllE root (st "CLIENT_CHANGE_INFO")).map changeRecordOf) ∧
    ((findAllE root (st "CLIENT_CHANGE_INFO")).map changeRecordOf).length
      = (findAllE root (st "CLIENT_CHANGE_INFO")).length ∧
    ∀ node ∈ findAllE root (st "CLIENT_CHANGE_INFO"),
      (node.children.map XElem.tag).Nodup →
      ∀ ch ∈ node.children,
        dictGet (changeRecordOf node) ch.tag = some (pyStrip (textOrEmpty ch)) := by
  refine ⟨?_, List.length_map _ _, ?_⟩
  · simp only [clients_change_list_run, hres, hok]
    simp
  · intro node _ hnd ch hch
    have hpairs : ((node.children.map (fun c => (c.tag, pyStrip (textOrEmpty c)))).map
        Prod.fst) = node.children.map XElem.tag := by
      simp [List.map_map]
    unfold changeRecordOf
    rw [dictOfPairs_eq_self _ (by rw [hpairs]; exact hnd)]
    exact dictGet_of_mem _ (by rw [hpairs]; exact hnd) _ _
      (List.mem_map_of_mem _ hch)

/-- C8 witness: the statement evaluated on the concrete three-event
response `c8doc`. -/
theorem c8_witness :
    clients_change_list_run c8doc
      = some ((findAllE c8doc (st "CLIENT_CHANGE_INFO")).map changeRecordOf) ∧
    ((findAllE c8doc (st "CLIENT_CHANGE_INFO")).map changeRecordOf).length
      = (findAllE c8doc (st "CLIENT_CHANGE_INFO")).length ∧
    ∀ node ∈ findAllE c8doc (st "CLIENT_CHANGE_INFO"),
      (node.children.map XElem.tag).Nodup →
      ∀ ch ∈ node.children,
        dictGet (changeRecordOf node) ch.tag = some (pyStrip (textOrEmpty ch)) :=
  c8_change_records c8doc (st "ok") (by decide) (by decide)

/-- C10: confirmed.  If the patient mapping lacks any of the required
keys `LASTNAME`, `FIRSTNAME` or `BDATE`, building the request body fails
with the key-lookup error (`KeyError`) and the whole call reports it —
for every server oracle, i.e. without any network send being attempted —
rather than emitting an empty element for the missing field. -/
theorem c10_missing_required_key (ts mid : PyStr) (p : Patient)
    (server : PyStr → HttpOutcome)
    (h : p (st "LASTNAME") = none ∨ p (st "FIRSTNAME") = none ∨ p (st "BDATE") = none) :
    client_add_body ts mid p = none ∧
    client_add_call ts mid p server = .error .keyError := by
  have hb : client_add_body ts mid p = none := by
    cases hL : p (st "LASTNAME") <;> cases hF : p (st "FIRSTNAME") <;>
      cases hB : p (st "BDATE") <;>
      simp_all [client_add_body]
  exact ⟨hb, by simp only [client_add_call, hb]⟩

/-- C10 witness: evaluated on the concrete patient missing `BDATE`, with
an arbitrary concrete server oracle. -/
theorem c10_witness :
    client_add_body (st "20240101000000") (st "deadbeef") c10patient = none ∧
    client_add_call (st "20240101000000") (st "deadbeef") c10patient
      (fun _ => .netFailure) = .error .keyError :=
  c10_missing_required_key (st "20240101000000") (st "deadbeef") c10patient
    (fun _ => .netFailure) (Or.inr (Or.inr (by decide)))

theorem tagChars_props :
    ∀ c ∈ tagChars, c ≠ '?' ∧ c ≠ '!' ∧ c ≠ '/' ∧ c ≠ '>' ∧ c ≠ '<' ∧
      c.isWhitespace = false := by
  decide

theorem takeWhile_of_all {q : Char → Bool} (l : PyStr) (h : ∀ c ∈ l, q c = true) :
    l.takeWhile q = l :=
  List.takeWhile_eq_self_iff.mpr h

theorem tag_addText (f : Frame) (p : PyStr) : (addText f p).tag = f.tag := by
  unfold addText; split <;> rfl

theorem text_addChild (f : Frame) (e : XElem) : (addChild f e).text = f.text := rfl

theorem tag_addChild (f : Frame) (e : XElem) : (addChild f e).tag = f.tag := rfl

theorem rkids_addText (f : Frame) (p : PyStr) : (addText f p).rkids = f.rkids := by
  unfold addText; split <;> rfl

theorem rkids_addChild (f : Frame) (e : XElem) : (addChild f e).rkids = e :: f.rkids := rfl

theorem addText_nil (f : Frame) : addText f [] = f := by
  unfold addText
  rw [if_neg]
  simp

theorem addText_fresh (t : PyStr) (v : PyStr) :
    addText ⟨t, none, []⟩ v = ⟨t, textOpt v, []⟩ := by
  unfold addText textOpt
  by_cases hv : v = []
  · subst hv; simp
  · simp [hv]

theorem addText_withkids (f : Frame) (p : PyStr) (h : f.rkids ≠ []) : addText f p = f := by
  unfold addText
  rw [if_neg]
  simp [h]

theorem pRun_txt (v : PyStr) (hv : ∀ c ∈ v, c ≠ '<') :
    ∀ (cs : PyStr) (p : PyStr) (stk : List Frame),
      pRun (v ++ cs) (.txt p) stk = pRun cs (.txt (p ++ v)) stk := by
  induction v with
  | nil => intro cs p stk; simp
  | cons c rest ih =>
    intro cs p stk
    have hc : c ≠ '<' := hv c (by simp)
    have hstep : pRun (c :: (rest ++ cs)) (.txt p) stk
        = pRun (rest ++ cs) (.txt (p ++ [c])) stk := by
      simp only [pRun]
      rw [if_neg hc]
    rw [List.cons_append, hstep, ih (fun x hx => hv x (by simp [hx])) cs (p ++ [c]) stk]
    simp

theorem pRun_tagacc (t : PyStr) (ht : ∀ c ∈ t, c ≠ '>' ∧ c ≠ '<') :
    ∀ (cs : PyStr) (p acc : PyStr) (stk : List Frame),
      pRun (t ++ cs) (.tag p acc) stk = pRun cs (.tag p (acc ++ t)) stk := by
  induction t with
  | nil => intro cs p acc stk; simp
  | cons c rest ih =>
    intro cs p acc stk
    have hc := ht c (by simp)
    have hstep : pRun (c :: (rest ++ cs)) (.tag p acc) stk
        = pRun (rest ++ cs) (.tag p (acc ++ [c])) stk := by
      simp only [pRun]
      rw [if_neg hc.1, if_neg hc.2]
    rw [List.cons_append, hstep, ih (fun x hx => ht x (by simp [hx])) cs p (acc ++ [c]) stk]
    simp

theorem classify_goodname (t : PyStr) (h : GoodName t) : classifyTag t = .opTag t := by
  obtain ⟨hne, hch⟩ := h
  cases t with
  | nil => exact absurd rfl hne
  | cons c rest =>
    have hc := tagChars_props c (hch c (by simp))
    simp only [classifyTag]
    rw [if_neg, if_neg hc.2.2.1, if_neg]
    · unfold nameOf
      rw [takeWhile_of_all _ (fun x hx => by
        simp [(tagChars_props x (hch x hx)).2.2.2.2.2])]
    · intro hlast
      have hmem := List.mem_of_mem_getLast? hlast
      exact (tagChars_props '/' (hch '/' hmem)).2.2.1 rfl
    · rintro (rfl | rfl)
      · exact hc.1 rfl
      · exact hc.2.1 rfl

theorem classify_close_goodname (t : PyStr) (h : GoodName t) :
    classifyTag ('/' :: t) = .clTag t := by
  obtain ⟨hne, hch⟩ := h
  have hname : nameOf t = t := takeWhile_of_all _ (fun x hx => by
    simp [(tagChars_props x (hch x hx)).2.2.2.2.2])
  simp [classifyTag, hname]

theorem pRun_open (t : PyStr) (ht : GoodName t) :
    ∀ (cs : PyStr) (p : PyStr) (f : Frame) (fs : List Frame),
      pRun ('<' :: (t ++ ('>' :: cs))) (.txt p) (f :: fs)
        = pRun cs (.txt []) (⟨t, none, []⟩ :: addText f p :: fs) := by
  intro cs p f fs
  have h1 : pRun ('<' :: (t ++ ('>' :: cs))) (.txt p) (f :: fs)
      = pRun (t ++ ('>' :: cs)) (.tag p []) (f :: fs) := rfl
  rw [h1, pRun_tagacc t (fun c hc => ⟨(tagChars_props c (ht.2 c hc)).2.2.2.1,
    (tagChars_props c (ht.2 c hc)).2.2.2.2.1⟩) _ p [] _]
  simp only [List.nil_append]
  simp only [pRun, classify_goodname t ht]
  rw [if_pos trivial]

theorem pRun_close (t : PyStr) (ht : GoodName t) :
    ∀ (cs : PyStr) (p : PyStr) (f g : Frame) (fs : List Frame), f.tag = t →
      pRun ('<' :: ('/' :: (t ++ ('>' :: cs)))) (.txt p) (f :: g :: fs)
        = pRun cs (.txt []) (addChild g (closeFrame (addText f p)) :: fs) := by
  intro cs p f g fs hf
  have h1 : pRun ('<' :: ('/' :: (t ++ ('>' :: cs)))) (.txt p) (f :: g :: fs)
      = pRun (t ++ ('>' :: cs)) (.tag p ['/']) (f :: g :: fs) := rfl
  rw [h1, pRun_tagacc t (fun c hc => ⟨(tagChars_props c (ht.2 c hc)).2.2.2.1,
    (tagChars_props c (ht.2 c hc)).2.2.2.2.1⟩) _ p ['/'] _]
  have h3 : (['/'] ++ t : PyStr) = '/' :: t := rfl
  rw [h3]
  have htag : (addText f p).tag = t := by rw [tag_addText]; exact hf
  simp only [pRun, classify_close_goodname t ht, htag, if_pos]

theorem pRun_opt (k v : PyStr) (hk : GoodName k) (hv : ∀ c ∈ v, c ≠ '<') :
    ∀ (cs : PyStr) (p : PyStr) (f : Frame) (fs : List Frame),
      pRun (optStr k v ++ cs) (.txt p) (f :: fs)
        = pRun cs (.txt (if v = [] then p else []))
            ((if v = [] then f
              else addChild (addText f p) (.mk k (some v) [])) :: fs) := by
  intro cs p f fs
  by_cases hveq : v = []
  · subst hveq
    simp [optStr]
  · rw [if_neg hveq, if_neg hveq]
    unfold optStr
    rw [if_neg hveq]
    have hshape : (st "<" ++ k ++ st ">" ++ v ++ st "</" ++ k ++ st ">") ++ cs
        = '<' :: (k ++ ('>' :: (v ++ ('<' :: ('/' :: (k ++ ('>' :: cs))))))) := by
      simp [st, List.append_assoc]
    rw [hshape, pRun_open k hk, pRun_txt v hv]
    simp only [List.nil_append]
    rw [pRun_close k hk _ _ _ _ _ rfl]
    rw [addText_fresh]
    have hcf : closeFrame ⟨k, textOpt v, []⟩ = .mk k (some v) [] := by
      simp [closeFrame, textOpt, hveq]
    rw [hcf]

-- Per-tag stepping instances of the generic lemmas, stated on the exact
-- literal chunks the body builders concatenate, so that the body walks
-- below can rewrite chunk by chunk.
theorem stepOpMSH (cs p : PyStr) (f : Frame) (fs : List Frame) :
    pRun (st "<MSH>" ++ cs) (.txt p) (f :: fs)
      = pRun cs (.txt []) (⟨st "MSH", none, []⟩ :: addText f p :: fs) :=
  pRun_open (st "MSH") (by decide) cs p f fs

theorem stepOpMSH3 (cs p : PyStr) (f : Frame) (fs : List Frame) :
    pRun (st "<MSH.3>" ++ cs) (.txt p) (f :: fs)
      = pRun cs (.txt []) (⟨st "MSH.3", none, []⟩ :: addText f p :: fs) :=
  pRun_open (st "MSH.3") (by decide) cs p f fs

theorem stepOpMSH7 (cs p : PyStr) (f : Frame) (fs : List Frame) :
    pRun (st "<MSH.7>" ++ cs) (.txt p) (f :: fs)
      = pRun cs (.txt []) (⟨st "MSH.7", none, []⟩ :: addText f p :: fs) :=
  pRun_open (st "MSH.7") (by decide) cs p f fs

theorem stepOpTS1 (cs p : PyStr) (f : Frame) (fs : List Frame) :
    pRun (st "<TS.1>" ++ cs) (.txt p) (f :: fs)
      = pRun cs (.txt []) (⟨st "TS.1", none, []⟩ :: addText f p :: fs) :=
  pRun_open (st "TS.1") (by decide) cs p f fs

theorem stepOpMSH9 (cs p : PyStr) (f : Frame) (fs : List Frame) :
    pRun (st "<MSH.9>" ++ cs) (.txt p) (f :: fs)
      = pRun cs (.txt []) (⟨st "MSH.9", none, []⟩ :: addText f p :: fs) :=
  pRun_open (st "MSH.9") (by decide) cs p f fs

theorem stepOpMSG1 (cs p : PyStr) (f : Frame) (fs : List Frame) :
    pRun (st "<MSG.1>" ++ cs) (.txt p) (f :: fs)
      = pRun cs (.txt []) (⟨st "MSG.1", none, []⟩ :: addText f p :: fs) :=
  pRun_open (st "MSG.1") (by decide) cs p f fs

theorem stepOpMSG2 (cs p : PyStr) (f : Frame) (fs : List Frame) :
    pRun (st "<MSG.2>" ++ cs) (.txt p) (f :: fs)
      = pRun cs (.txt []) (⟨st "MSG.2", none, []⟩ :: addText f p :: fs) :=
  pRun_open (st "MSG.2") (by decide) cs p f fs

theorem stepOpMSH10 (cs p : PyStr) (f : Frame) (fs : List Frame) :
    pRun (st "<MSH.10>" ++ cs) (.txt p) (f :: fs)
      = pRun cs (.txt []) (⟨st "MSH.10", none, []⟩ :: addText f p :: fs) :=
  pRun_open (st "MSH.10") (by decide) cs p f fs

theorem stepOpMSH18 (cs p : PyStr) (f : Frame) (fs : List Frame) :
    pRun (st "<MSH.18>" ++ cs) (.txt p) (f :: fs)
      = pRun cs (.txt []) (⟨st "MSH.18", none, []⟩ :: addText f p :: fs) :=
  pRun_open (st "MSH.18") (by decide) cs p f fs

theorem stepOpMSH99 (cs p : PyStr) (f : Frame) (fs : List Frame) :
    pRun (st "<MSH.99>" ++ cs) (.txt p) (f :: fs)
      = pRun cs (.txt []) (⟨st "MSH.99", none, []⟩ :: addText f p :: fs) :=
  pRun_open (st "MSH.99") (by decide) cs p f fs

theorem stepOpWEBCLIENTADD (cs p : PyStr) (f : Frame) (fs : List Frame) :
    pRun (st "<WEB_CLIENT_ADD>" ++ cs) (.txt p) (f :: fs)
      = pRun cs (.txt []) (⟨st "WEB_CLIENT_ADD", none, []⟩ :: addText f p :: fs) :=
  pRun_open (st "WEB_CLIENT_ADD") (by decide) cs p f fs

theorem stepOpCLIENTADDIN (cs p : PyStr) (f : Frame) (fs : List Frame) :
    pRun (st "<CLIENT_ADD_IN>" ++ cs) (.txt p) (f :: fs)
      = pRun cs (.txt []) (⟨st "CLIENT_ADD_IN", none, []⟩ :: addText f p :: fs) :=
  pRun_open (st "CLIENT_ADD_IN") (by decide) cs p f fs

theorem stepOpLASTNAME (cs p : PyStr) (f : Frame) (fs : List Frame) :
    pRun (st "<LASTNAME>" ++ cs) (.txt p) (f :: fs)
      = pRun cs (.txt []) (⟨st "LASTNAME", none, []⟩ :: addText f p :: fs) :=
  pRun_open (st "LASTNAME") (by decide) cs p f fs

theorem stepOpFIRSTNAME (cs p : PyStr) (f : Frame) (fs : List Frame) :
    pRun (st "<FIRSTNAME>" ++ cs) (.txt p) (f :: fs)
      = pRun cs (.txt []) (⟨st "FIRSTNAME", none, []⟩ :: addText f p :: fs) :=
  pRun_open (st "FIRSTNAME") (by decide) cs p f fs

theorem stepOpBDATE (cs p : PyStr) (f : Frame) (fs : List Frame) :
    pRun (st "<BDATE>" ++ cs) (.txt p) (f :: fs)
      = pRun cs (.txt []) (⟨st "BDATE", none, []⟩ :: addText f p :: fs) :=
  pRun_open (st "BDATE") (by decide) cs p f fs

theorem stepClLeafMSH3 (cs p : PyStr) (g : Frame) (fs : List Frame) :
    pRun (st "</MSH.3>" ++ cs) (.txt p) (⟨st "MSH.3", none, []⟩ :: g :: fs)
      = pRun cs (.txt []) (addChild g (.mk (st "MSH.3") (textOpt p) []) :: fs) := by
  have h := pRun_close (st "MSH.3") (by decide) cs p ⟨st "MSH.3", none, []⟩ g fs rfl
  rw [addText_fresh] at h
  have hcf : closeFrame ⟨st "MSH.3", textOpt p, []⟩ = .mk (st "MSH.3") (textOpt p) [] := rfl
  rw [hcf] at h
  exact h

theorem stepClLeafTS1 (cs p : PyStr) (g : Frame) (fs : List Frame) :
    pRun (st "</TS.1>" ++ cs) (.txt p) (⟨st "TS.1", none, []⟩ :: g :: fs)
      = pRun cs (.txt []) (addChild g (.mk (st "TS.1") (textOpt p) []) :: fs) := by
  have h := pRun_close (st "TS.1") (by decide) cs p ⟨st "TS.1", none, []⟩ g fs rfl
  rw [addText_fresh] at h
  have hcf : closeFrame ⟨st "TS.1", textOpt p, []⟩ = .mk (st "TS.1") (textOpt p) [] := rfl
  rw [hcf] at h
  exact h

theorem stepClLeafMSG1 (cs p : PyStr) (g : Frame) (fs : List Frame) :
    pRun (st "</MSG.1>" ++ cs) (.txt p) (⟨st "MSG.1", none, []⟩ :: g :: fs)
      = pRun cs (.txt []) (addChild g (.mk (st "MSG.1") (textOpt p) []) :: fs) := by
  have h := pRun_close (st "MSG.1") (by decide) cs p ⟨st "MSG.1", none, []⟩ g fs rfl
  rw [addText_fresh] at h
  have hcf : closeFrame ⟨st "MSG.1", textOpt p, []⟩ = .mk (st "MSG.1") (textOpt p) [] := rfl
  rw [hcf] at h
  exact h

theorem stepClLeafMSG2 (cs p : PyStr) (g : Frame) (fs : List Frame) :
    pRun (st "</MSG.2>" ++ cs) (.txt p) (⟨st "MSG.2", none, []⟩ :: g :: fs)
      = pRun cs (.txt []) (addChild g (.mk (st "MSG.2") (textOpt p) []) :: fs) := by
  have h := pRun_close (st "MSG.2") (by decide) cs p ⟨st "MSG.2", none, []⟩ g fs rfl
  rw [addText_fresh] at h
  have hcf : closeFrame ⟨st "MSG.2", textOpt p, []⟩ = .mk (st "MSG.2") (textOpt p) [] := rfl
  rw [hcf] at h
  exact h

theorem stepClLeafMSH10 (cs p : PyStr) (g : Frame) (fs : List Frame) :
    pRun (st "</MSH.10>" ++ cs) (.txt p) (⟨st "MSH.10", none, []⟩ :: g :: fs)
      = pRun cs (.txt []) (addChild g (.mk (st "MSH.10") (textOpt p) []) :: fs) := by
  have h := pRun_close (st "MSH.10") (by decide) cs p ⟨st "MSH.10", none, []⟩ g fs rfl
  rw [addText_fresh] at h
  have hcf : closeFrame ⟨st "MSH.10", textOpt p, []⟩ = .mk (st "MSH.10") (textOpt p) [] := rfl
  rw [hcf] at h
  exact h

theorem stepClLeafMSH18 (cs p : PyStr) (g : Frame) (fs : List Frame) :
    pRun (st "</MSH.18>" ++ cs) (.txt p) (⟨st "MSH.18", none, []⟩ :: g :: fs)
      = pRun cs (.txt []) (addChild g (.mk (st "MSH.18") (textOpt p) []) :: fs) := by
  have h := pRun_close (st "MSH.18") (by decide) cs p ⟨st "MSH.18", none, []⟩ g fs rfl
  rw [addText_fresh] at h
  have hcf : closeFrame ⟨st "MSH.18", textOpt p, []⟩ = .mk (st "MSH.18") (textOpt p) [] := rfl
  rw [hcf] at h
  exact h

theorem stepClLeafMSH99 (cs p : PyStr) (g : Frame) (fs : List Frame) :
    pRun (st "</MSH.99>" ++ cs) (.txt p) (⟨st "MSH.99", none, []⟩ :: g :: fs)
      = pRun cs (.txt []) (addChild g (.mk (st "MSH.99") (textOpt p) []) :: fs) := by
  have h := pRun_close (st "MSH.99") (by decide) cs p ⟨st "MSH.99", none, []⟩ g fs rfl
  rw [addText_fresh] at h
  have hcf : closeFrame ⟨st "MSH.99", textOpt p, []⟩ = .mk (st "MSH.99") (textOpt p) [] := rfl
  rw [hcf] at h
  exact h

theorem stepClLeafLASTNAME (cs p : PyStr) (g : Frame) (fs : List Frame) :
    pRun (st "</LASTNAME>" ++ cs) (.txt p) (⟨st "LASTNAME", none, []⟩ :: g :: fs)
      = pRun cs (.txt []) (addChild g (.mk (st "LASTNAME") (textOpt p) []) :: fs) := by
  have h := pRun_close (st "LASTNAME") (by decide) cs p ⟨st "LASTNAME", none, []⟩ g fs rfl
  rw [addText_fresh] at h
  have hcf : closeFrame ⟨st "LASTNAME", textOpt p, []⟩ = .mk (st "LASTNAME") (textOpt p) [] := rfl
  rw [hcf] at h
  exact h

theorem stepClLeafFIRSTNAME (cs p : PyStr) (g : Frame) (fs : List Frame) :
    pRun (st "</FIRSTNAME>" ++ cs) (.txt p) (⟨st "FIRSTNAME", none, []⟩ :: g :: fs)
      = pRun cs (.txt []) (addChild g (.mk (st "FIRSTNAME") (textOpt p) []) :: fs) := by
  have h := pRun_close (st "FIRSTNAME") (by decide) cs p ⟨st "FIRSTNAME", none, []⟩ g fs rfl
  rw [addText_fresh] at h
  have hcf : closeFrame ⟨st "FIRSTNAME", textOpt p, []⟩ = .mk (st "FIRSTNAME") (textOpt p) [] := rfl
  rw [hcf] at h
  exact h

theorem stepClLeafBDATE (cs p : PyStr) (g : Frame) (fs : List Frame) :
    pRun (st "</BDATE>" ++ cs) (.txt p) (⟨st "BDATE", none, []⟩ :: g :: fs)
      = pRun cs (.txt []) (addChild g (.mk (st "BDATE") (textOpt p) []) :: fs) := by
  have h := pRun_close (st "BDATE") (by decide) cs p ⟨st "BDATE", none, []⟩ g fs rfl
  rw [addText_fresh] at h
  have hcf : closeFrame ⟨st "BDATE", textOpt p, []⟩ = .mk (st "BDATE") (textOpt p) [] := rfl
  rw [hcf] at h
  exact h

theorem stepClMSH7 (cs p : PyStr) (f g : Frame) (fs : List Frame)
    (hf : f.tag = st "MSH.7") :
    pRun (st "</MSH.7>" ++ cs) (.txt p) (f :: g :: fs)
      = pRun cs (.txt []) (addChild g (closeFrame (addText f p)) :: fs) :=
  pRun_close (st "MSH.7") (by decide) cs p f g fs hf

theorem stepClMSH9 (cs p : PyStr) (f g : Frame) (fs : List Frame)
    (hf : f.tag = st "MSH.9") :
    pRun (st "</MSH.9>" ++ cs) (.txt p) (f :: g :: fs)
      = pRun cs (.txt []) (addChild g (closeFrame (addText f p)) :: fs) :=
  pRun_close (st "MSH.9") (by decide) cs p f g fs hf

theorem stepClMSH (cs p : PyStr) (f g : Frame) (fs : List Frame)
    (hf : f.tag = st "MSH") :
    pRun (st "</MSH>" ++ cs) (.txt p) (f :: g :: fs)
      = pRun cs (.txt []) (addChild g (closeFrame (addText f p)) :: fs) :=
  pRun_close (st "MSH") (by decide) cs p f g fs hf

theorem stepClCLIENTADDIN (cs p : PyStr) (f g : Frame) (fs : List Frame)
    (hf : f.tag = st "CLIENT_ADD_IN") :
    pRun (st "</CLIENT_ADD_IN>" ++ cs) (.txt p) (f :: g :: fs)
      = pRun cs (.txt []) (addChild g (closeFrame (addText f p)) :: fs) :=
  pRun_close (st "CLIENT_ADD_IN") (by decide) cs p f g fs hf

theorem stepClWEBCLIENTADD (cs p : PyStr) (f g : Frame) (fs : List Frame)
    (hf : f.tag = st "WEB_CLIENT_ADD") :
    pRun (st "</WEB_CLIENT_ADD>" ++ cs) (.txt p) (f :: g :: fs)
      = pRun cs (.txt []) (addChild g (closeFrame (addText f p)) :: fs) :=
  pRun_close (st "WEB_CLIENT_ADD") (by decide) cs p f g fs hf


theorem digitChar_isDigit (m : Nat) (h : m < 10) : (Nat.digitChar m).isDigit = true := by
  interval_cases m <;> decide

theorem toDigitsCore_digits :
    ∀ (fuel n : Nat) (acc : List Char), (∀ c ∈ acc, c.isDigit = true) →
      ∀ c ∈ Nat.toDigitsCore 10 fuel n acc, c.isDigit = true := by
  intro fuel
  induction fuel with
  | zero => intro n acc hacc; simpa [Nat.toDigitsCore] using hacc
  | succ fuel ih =>
    intro n acc hacc c hc
    simp only [Nat.toDigitsCore] at hc
    by_cases hq : n / 10 = 0
    · rw [if_pos hq] at hc
      rcases List.mem_cons.mp hc with rfl | hmem
      · exact digitChar_isDigit _ (Nat.mod_lt _ (by omega))
      · exact hacc c hmem
    · rw [if_neg hq] at hc
      refine ih (n / 10) (Nat.digitChar (n % 10) :: acc) ?_ c hc
      intro x hx
      rcases List.mem_cons.mp hx with rfl | hmem
      · exact digitChar_isDigit _ (Nat.mod_lt _ (by omega))
      · exact hacc x hmem

theorem toDigits_digits (n : Nat) : ∀ c ∈ Nat.toDigits 10 n, c.isDigit = true :=
  toDigitsCore_digits (n + 1) n [] (by intro c hc; cases hc)

theorem toDigitsCore_ne_nil :
    ∀ (fuel n : Nat) (acc : List Char), acc ≠ [] → Nat.toDigitsCore 10 fuel n acc ≠ [] := by
  intro fuel
  induction fuel with
  | zero => intro n acc hacc; simpa [Nat.toDigitsCore] using hacc
  | succ fuel ih =>
    intro n acc hacc
    simp only [Nat.toDigitsCore]
    by_cases hq : n / 10 = 0
    · rw [if_pos hq]; simp
    · rw [if_neg hq]
      exact ih (n / 10) _ (by simp)

theorem toDigits_ne_nil (n : Nat) : Nat.toDigits 10 n ≠ [] := by
  unfold Nat.toDigits
  simp only [Nat.toDigitsCore]
  by_cases hq : n / 10 = 0
  · rw [if_pos hq]; simp
  · rw [if_neg hq]
    exact toDigitsCore_ne_nil n (n / 10) _ (by simp)

theorem digit_char_safe (c : Char) (h : c.isDigit = true) :
    c ≠ '<' ∧ c ≠ '&' ∧ c ≠ '"' := by
  refine ⟨?_, ?_, ?_⟩ <;> rintro rfl <;> exact absurd h (by decide)

theorem natRepr_data (n : Nat) : (Nat.repr n).data = Nat.toDigits 10 n := rfl

theorem intStr_good (b : Int) : GoodText (intStr b) := by
  intro c hc
  cases b with
  | ofNat m =>
    have : c ∈ Nat.toDigits 10 m := by
      simpa [intStr, toString, Int.repr, natRepr_data] using hc
    exact digit_char_safe c (toDigits_digits m c this)
  | negSucc m =>
    have hdata : intStr (Int.negSucc m) = '-' :: Nat.toDigits 10 (m + 1) := by
      simp [intStr, toString, Int.repr]
      rfl
    rw [hdata] at hc
    rcases List.mem_cons.mp hc with rfl | hmem
    · exact ⟨by decide, by decide, by decide⟩
    · exact digit_char_safe c (toDigits_digits (m + 1) c hmem)

theorem intStr_ne_nil (b : Int) : intStr b ≠ [] := by
  cases b with
  | ofNat m =>
    have : intStr (Int.ofNat m) = Nat.toDigits 10 m := rfl
    rw [this]
    exact toDigits_ne_nil m
  | negSucc m =>
    have : intStr (Int.negSucc m) = '-' :: Nat.toDigits 10 (m + 1) := by
      simp [intStr, toString, Int.repr]
      rfl
    rw [this]
    simp

theorem mshStep (msgType ts mid : PyStr) (fo : Option Int)
    (hm : ∀ c ∈ msgType, c ≠ '<') (hts : ∀ c ∈ ts, c ≠ '<')
    (hmid : ∀ c ∈ mid, c ≠ '<') :
    ∀ (cs : PyStr) (p : PyStr) (f : Frame) (fs : List Frame),
      pRun (buildMshXml msgType fo ts mid ++ cs) (.txt p) (f :: fs)
        = pRun cs (.txt []) (addChild (addText f p) (mshTree msgType fo ts mid) :: fs) := by
  intro cs p f fs
  cases fo with
  | none =>
    simp only [buildMshXml, filialTag, List.append_assoc, List.nil_append]
    rw [stepOpMSH, pRun_txt (st "\n    ") (by decide), stepOpMSH3,
        pRun_txt EXTERNAL_SYSTEM_ID (by decide), stepClLeafMSH3,
        pRun_txt (st "\n    ") (by decide), stepOpMSH7, stepOpTS1,
        pRun_txt ts hts, stepClLeafTS1]
    rw [stepClMSH7 _ _ _ _ _ rfl]
    rw [pRun_txt (st "\n    ") (by decide), stepOpMSH9,
        pRun_txt (st "\n        ") (by decide), stepOpMSG1,
        pRun_txt (st "WEB") (by decide), stepClLeafMSG1,
        pRun_txt (st "\n        ") (by decide), stepOpMSG2,
        pRun_txt msgType hm, stepClLeafMSG2,
        pRun_txt (st "\n    ") (by decide)]
    rw [stepClMSH9 _ _ _ _ _ rfl]
    rw [pRun_txt (st "\n    ") (by decide), stepOpMSH10,
        pRun_txt mid hmid, stepClLeafMSH10,
        pRun_txt (st "\n    ") (by decide), stepOpMSH18,
        pRun_txt (st "UTF-8") (by decide), stepClLeafMSH18,
        pRun_txt (st "\n    ") (by decide), pRun_txt (st "\n") (by decide)]
    rw [stepClMSH _ _ _ _ _ rfl]
    rfl
  | some b =>
    simp only [buildMshXml, filialTag, List.append_assoc, List.nil_append]
    rw [stepOpMSH, pRun_txt (st "\n    ") (by decide), stepOpMSH3,
        pRun_txt EXTERNAL_SYSTEM_ID (by decide), stepClLeafMSH3,
        pRun_txt (st "\n    ") (by decide), stepOpMSH7, stepOpTS1,
        pRun_txt ts hts, stepClLeafTS1]
    rw [stepClMSH7 _ _ _ _ _ rfl]
    rw [pRun_txt (st "\n    ") (by decide), stepOpMSH9,
        pRun_txt (st "\n        ") (by decide), stepOpMSG1,
        pRun_txt (st "WEB") (by decide), stepClLeafMSG1,
        pRun_txt (st "\n        ") (by decide), stepOpMSG2,
        pRun_txt msgType hm, stepClLeafMSG2,
        pRun_txt (st "\n    ") (by decide)]
    rw [stepClMSH9 _ _ _ _ _ rfl]
    rw [pRun_txt (st "\n    ") (by decide), stepOpMSH10,
        pRun_txt mid hmid, stepClLeafMSH10,
        pRun_txt (st "\n    ") (by decide), stepOpMSH18,
        pRun_txt (st "UTF-8") (by decide), stepClLeafMSH18,
        pRun_txt (st "\n    ") (by decide), stepOpMSH99,
        pRun_txt (intStr b) (fun c hc => (intStr_good b c hc).1), stepClLeafMSH99,
        pRun_txt (st "\n") (by decide)]
    rw [stepClMSH _ _ _ _ _ rfl]
    have htx : textOpt ([] ++ intStr b) = some (intStr b) := by
      simp [textOpt, intStr_ne_nil b]
    rw [htx]
    rfl

theorem sFail_buf (b : PyStr) (c : Char) :
    (sFail b c).1 ++ (sFail b c).2.buf = b ++ [c] := by
  unfold sFail
  split <;> simp [SState.buf]

theorem sstep_buf (s : SState) (c : Char) (hc : c ≠ '"') :
    (sstep s c).1 ++ (sstep s c).2.buf = s.buf ++ [c] := by
  cases s with
  | idle =>
    by_cases hw : c.isWhitespace <;> simp [sstep, hw, SState.buf]
  | ws b =>
    by_cases hw : c.isWhitespace
    · simp [sstep, hw, SState.buf]
    · by_cases hx : c = 'x'
      · simp [sstep, hw, hx, SState.buf]
      · simpa [sstep, hw, hx] using sFail_buf b c
  | lit b rem =>
    cases rem with
    | nil => simpa [sstep] using sFail_buf b c
    | cons r rs =>
      by_cases hcr : c = r
      · by_cases hrs : rs = [] <;> simp [sstep, hcr, hrs, SState.buf]
      · simpa [sstep, hcr] using sFail_buf b c
  | afterx b =>
    by_cases hcol : c = ':'
    · simp [sstep, hcol, SState.buf]
    · by_cases heq : c = '='
      · simp [sstep, hcol, heq, SState.buf]
      · simpa [sstep, hcol, heq] using sFail_buf b c
  | word1 b =>
    by_cases hwd : isWordChar c = true
    · simp [sstep, hwd, SState.buf]
    · simpa [sstep, hwd] using sFail_buf b c
  | word b =>
    by_cases hwd : isWordChar c = true
    · simp [sstep, hwd, SState.buf]
    · by_cases heq : c = '='
      · subst heq
        simp [sstep, SState.buf, show isWordChar '=' = false from by decide]
      · simpa [sstep, hwd, heq] using sFail_buf b c
  | quo b =>
    simp only [sstep]
    rw [if_neg hc]
    exact sFail_buf b c
  | url b =>
    simp only [sstep]
    rw [if_neg hc]
    simp [SState.buf]

theorem stripRun_nomatch (cs : PyStr) (h : ∀ c ∈ cs, c ≠ '"') :
    ∀ s : SState, stripRun s cs = s.buf ++ cs := by
  induction cs with
  | nil => intro s; simp [stripRun]
  | cons c rest ih =>
    intro s
    have hc : c ≠ '"' := h c (by simp)
    have hsh : stripRun s (c :: rest)
        = (sstep s c).1 ++ stripRun (sstep s c).2 rest := by
      simp only [stripRun]
    rw [hsh, ih (fun x hx => h x (by simp [hx])) (sstep s c).2,
        ← List.append_assoc, sstep_buf s c hc]
    simp

/-- Strings without a double quote: the stripping regex needs a quoted
attribute value, so it can never match inside them. -/
abbrev noQuote (s : PyStr) : Prop := ∀ c ∈ s, c ≠ '"'

theorem noQuote_append {a b : PyStr} (ha : noQuote a) (hb : noQuote b) :
    noQuote (a ++ b) := by
  intro c hc
  rcases List.mem_append.mp hc with h | h
  · exact ha c h
  · exact hb c h

theorem noQuote_of_goodText {s : PyStr} (h : GoodText s) : noQuote s :=
  fun c hc => (h c hc).2.2

theorem noQuote_optStr {k v : PyStr} (hk : noQuote k) (hv : noQuote v) :
    noQuote (optStr k v) := by
  unfold optStr
  split
  · intro c hc; cases hc
  · simp only [List.append_assoc]
    exact noQuote_append (by decide)
      (noQuote_append hk
      (noQuote_append (by decide)
      (noQuote_append hv
      (noQuote_append (by decide)
      (noQuote_append hk
      ((by decide)))))))

theorem noQuote_filialTag (fo : Option Int) : noQuote (filialTag fo) := by
  cases fo with
  | none => intro c hc; cases hc
  | some b =>
    simp only [filialTag, List.append_assoc]
    exact noQuote_append (by decide)
      (noQuote_append (noQuote_of_goodText (intStr_good b)) (by decide))

theorem noQuote_msh {msgType ts mid : PyStr} (fo : Option Int)
    (hm : noQuote msgType) (hts : noQuote ts) (hmid : noQuote mid) :
    noQuote (buildMshXml msgType fo ts mid) := by
  simp only [buildMshXml, List.append_assoc]
  exact noQuote_append (by decide)
      (noQuote_append (by decide)
      (noQuote_append (by decide)
      (noQuote_append (by decide)
      (noQuote_append (by decide)
      (noQuote_append (by decide)
      (noQuote_append (by decide)
      (noQuote_append (by decide)
      (noQuote_append hts
      (noQuote_append (by decide)
      (noQuote_append (by decide)
      (noQuote_append (by decide)
      (noQuote_append (by decide)
      (noQuote_append (by decide)
      (noQuote_append (by decide)
      (noQuote_append (by decide)
      (noQuote_append (by decide)
      (noQuote_append (by decide)
      (noQuote_append (by decide)
      (noQuote_append hm
      (noQuote_append (by decide)
      (noQuote_append (by decide)
      (noQuote_append (by decide)
      (noQuote_append (by decide)
      (noQuote_append (by decide)
      (noQuote_append hmid
      (noQuote_append (by decide)
      (noQuote_append (by decide)
      (noQuote_append (by decide)
      (noQuote_append (by decide)
      (noQuote_append (by decide)
      (noQuote_append (by decide)
      (noQuote_append (noQuote_filialTag fo)
      (noQuote_append (by decide)
      ((by decide)))))))))))))))))))))))))))))))))))

theorem addChild_mk (t : PyStr) (x : Option PyStr) (K : List XElem) (e : XElem) :
    addChild ⟨t, x, K⟩ e = ⟨t, x, e :: K⟩ := rfl

theorem addText_textsome (t w pp : PyStr) (K : List XElem) :
    addText ⟨t, some w, K⟩ pp = ⟨t, some w, K⟩ := by
  unfold addText
  simp

theorem closeFrame_mk (t : PyStr) (x : Option PyStr) (K : List XElem) :
    closeFrame ⟨t, x, K⟩ = .mk t x K.reverse := rfl

theorem opt_frame_norm (v k w pp t : PyStr) (K : List XElem) :
    (if v = [] then (⟨t, some w, K⟩ : Frame)
     else addChild (addText ⟨t, some w, K⟩ pp) (.mk k (some v) []))
      = ⟨t, some w, (if v = [] then [] else [.mk k (some v) []]) ++ K⟩ := by
  split
  · simp
  · rw [addText_textsome, addChild_mk]
    simp

theorem stepDecl (cs p : PyStr) (f : Frame) (fs : List Frame) :
    pRun (st "<?xml version=\"1.0\" encoding=\"UTF-8\"?>" ++ cs) (.txt p) (f :: fs)
      = pRun cs (.txt p) (f :: fs) := rfl

set_option maxRecDepth 400000 in
theorem strip_prefix_add (cs : PyStr) :
    stripRun .idle (st "<?xml version=\"1.0\" encoding=\"UTF-8\"?>"
        ++ (st "\n" ++ (st "<WEB_CLIENT_ADD xmlns=\"http://sdsys.ru/\">" ++ cs)))
      = st "<?xml version=\"1.0\" encoding=\"UTF-8\"?>"
        ++ (st "\n" ++ (st "<WEB_CLIENT_ADD>" ++ stripRun .idle cs)) := rfl

theorem stripXmlns_add (rest : PyStr) (h : noQuote rest) :
    stripXmlns (st "<?xml version=\"1.0\" encoding=\"UTF-8\"?>"
        ++ (st "\n" ++ (st "<WEB_CLIENT_ADD xmlns=\"http://sdsys.ru/\">" ++ rest)))
      = st "<?xml version=\"1.0\" encoding=\"UTF-8\"?>"
        ++ (st "\n" ++ (st "<WEB_CLIENT_ADD>" ++ rest)) := by
  unfold stripXmlns
  rw [strip_prefix_add, stripRun_nomatch rest h .idle]
  rfl

theorem pRun_finish (e : XElem) :
    pRun [] (.txt []) [addChild (addText ⟨[], none, []⟩ ([] ++ st "\n")) e] = some e := rfl

theorem noQuote_pyOpt (p : Patient) (k : PyStr) (hk : noQuote k)
    (hv : noQuote ((p k).getD [])) : noQuote (pyOpt p k) := by
  unfold pyOpt
  exact noQuote_optStr hk hv

theorem client_add_parse (ts mid : PyStr) (p : Patient) (ln fn bd : PyStr)
    (hts : GoodText ts) (hmid : GoodText mid) (hp : PatientSafe p)
    (hL : p (st "LASTNAME") = some ln) (hF : p (st "FIRSTNAME") = some fn)
    (hB : p (st "BDATE") = some bd) :
    client_add_body ts mid p = some (st "<?xml version=\"1.0\" encoding=\"UTF-8\"?>" ++ (st "\n" ++ (st "<WEB_CLIENT_ADD xmlns=\"http://sdsys.ru/\">" ++ (st "\n    " ++ (buildMshXml (st "CLIENT_ADD") none ts mid ++ (st "\n    " ++ (st "<CLIENT_ADD_IN>" ++ (st "\n        " ++ (st "<LASTNAME>" ++ (ln ++ (st "</LASTNAME>" ++ (st "\n        " ++ (st "<FIRSTNAME>" ++ (fn ++ (st "</FIRSTNAME>" ++ (st "\n        " ++ (pyOpt p (st "MIDNAME") ++ (st "\n        " ++ (pyOpt p (st "EMAIL") ++ (st "\n        " ++ (pyOpt p (st "PHONE") ++ (st "\n        " ++ (st "<BDATE>" ++ (bd ++ (st "</BDATE>" ++ (st "\n        " ++ (pyOpt p (st "GENDER") ++ (st "\n        " ++ (pyOpt p (st "SNILS") ++ (st "\n        " ++ (pyOpt p (st "NSP") ++ (st "\n        " ++ (pyOpt p (st "CHECKMODE") ++ (st "\n        " ++ (pyOpt p (st "REFUSECALL") ++ (st "\n        " ++ (pyOpt p (st "REFUSESMS") ++ (st "\n    " ++ (st "</CLIENT_ADD_IN>" ++ (st "\n" ++ (st "</WEB_CLIENT_ADD>"))))))))))))))))))))))))))))))))))))))))) ∧
    parseXml (stripXmlns (st "<?xml version=\"1.0\" encoding=\"UTF-8\"?>" ++ (st "\n" ++ (st "<WEB_CLIENT_ADD xmlns=\"http://sdsys.ru/\">" ++ (st "\n    " ++ (buildMshXml (st "CLIENT_ADD") none ts mid ++ (st "\n    " ++ (st "<CLIENT_ADD_IN>" ++ (st "\n        " ++ (st "<LASTNAME>" ++ (ln ++ (st "</LASTNAME>" ++ (st "\n        " ++ (st "<FIRSTNAME>" ++ (fn ++ (st "</FIRSTNAME>" ++ (st "\n        " ++ (pyOpt p (st "MIDNAME") ++ (st "\n        " ++ (pyOpt p (st "EMAIL") ++ (st "\n        " ++ (pyOpt p (st "PHONE") ++ (st "\n        " ++ (st "<BDATE>" ++ (bd ++ (st "</BDATE>" ++ (st "\n        " ++ (pyOpt p (st "GENDER") ++ (st "\n        " ++ (pyOpt p (st "SNILS") ++ (st "\n        " ++ (pyOpt p (st "NSP") ++ (st "\n        " ++ (pyOpt p (st "CHECKMODE") ++ (st "\n        " ++ (pyOpt p (st "REFUSECALL") ++ (st "\n        " ++ (pyOpt p (st "REFUSESMS") ++ (st "\n    " ++ (st "</CLIENT_ADD_IN>" ++ (st "\n" ++ (st "</WEB_CLIENT_ADD>"))))))))))))))))))))))))))))))))))))))))))
      = some (clientAddTree ts mid p ln fn bd) := by
  have hln : GoodText ln := by
    have h := hp (st "LASTNAME") (by decide)
    rw [hL] at h
    simpa using h
  have hfn : GoodText fn := by
    have h := hp (st "FIRSTNAME") (by decide)
    rw [hF] at h
    simpa using h
  have hbd : GoodText bd := by
    have h := hp (st "BDATE") (by decide)
    rw [hB] at h
    simpa using h
  constructor
  · simp only [client_add_body, hL, hF, hB, List.append_assoc]
  · have hrest : noQuote (st "\n    " ++ (buildMshXml (st "CLIENT_ADD") none ts mid ++ (st "\n    " ++ (st "<CLIENT_ADD_IN>" ++ (st "\n        " ++ (st "<LASTNAME>" ++ (ln ++ (st "</LASTNAME>" ++ (st "\n        " ++ (st "<FIRSTNAME>" ++ (fn ++ (st "</FIRSTNAME>" ++ (st "\n        " ++ (pyOpt p (st "MIDNAME") ++ (st "\n        " ++ (pyOpt p (st "EMAIL") ++ (st "\n        " ++ (pyOpt p (st "PHONE") ++ (st "\n        " ++ (st "<BDATE>" ++ (bd ++ (st "</BDATE>" ++ (st "\n        " ++ (pyOpt p (st "GENDER") ++ (st "\n        " ++ (pyOpt p (st "SNILS") ++ (st "\n        " ++ (pyOpt p (st "NSP") ++ (st "\n        " ++ (pyOpt p (st "CHECKMODE") ++ (st "\n        " ++ (pyOpt p (st "REFUSECALL") ++ (st "\n        " ++ (pyOpt p (st "REFUSESMS") ++ (st "\n    " ++ (st "</CLIENT_ADD_IN>" ++ (st "\n" ++ (st "</WEB_CLIENT_ADD>")))))))))))))))))))))))))))))))))))))) :=
      noQuote_append (by decide)
      (noQuote_append (noQuote_msh none (by decide) (noQuote_of_goodText hts) (noQuote_of_goodText hmid))
      (noQuote_append (by decide)
      (noQuote_append (by decide)
      (noQuote_append (by decide)
      (noQuote_append (by decide)
      (noQuote_append (noQuote_of_goodText hln)
      (noQuote_append (by decide)
      (noQuote_append (by decide)
      (noQuote_append (by decide)
      (noQuote_append (noQuote_of_goodText hfn)
      (noQuote_append (by decide)
      (noQuote_append (by decide)
      (noQuote_append (noQuote_pyOpt p (st "MIDNAME") (by decide) (noQuote_of_goodText (hp (st "MIDNAME") (by decide))))
      (noQuote_append (by decide)
      (noQuote_append (noQuote_pyOpt p (st "EMAIL") (by decide) (noQuote_of_goodText (hp (st "EMAIL") (by decide))))
      (noQuote_append (by decide)
      (noQuote_append (noQuote_pyOpt p (st "PHONE") (by decide) (noQuote_of_goodText (hp (st "PHONE") (by decide))))
      (noQuote_append (by decide)
      (noQuote_append (by decide)
      (noQuote_append (noQuote_of_goodText hbd)
      (noQuote_append (by decide)
      (noQuote_append (by decide)
      (noQuote_append (noQuote_pyOpt p (st "GENDER") (by decide) (noQuote_of_goodText (hp (st "GENDER") (by decide))))
      (noQuote_append (by decide)
      (noQuote_append (noQuote_pyOpt p (st "SNILS") (by decide) (noQuote_of_goodText (hp (st "SNILS") (by decide))))
      (noQuote_append (by decide)
      (noQuote_append (noQuote_pyOpt p (st "NSP") (by decide) (noQuote_of_goodText (hp (st "NSP") (by decide))))
      (noQuote_append (by decide)
      (noQuote_append (noQuote_pyOpt p (st "CHECKMODE") (by decide) (noQuote_of_goodText (hp (st "CHECKMODE") (by decide))))
      (noQuote_append (by decide)
      (noQuote_append (noQuote_pyOpt p (st "REFUSECALL") (by decide) (noQuote_of_goodText (hp (st "REFUSECALL") (by decide))))
      (noQuote_append (by decide)
      (noQuote_append (noQuote_pyOpt p (st "REFUSESMS") (by decide) (noQuote_of_goodText (hp (st "REFUSESMS") (by decide))))
      (noQuote_append (by decide)
      (noQuote_append (by decide)
      (noQuote_append (by decide)
      ((by decide))))))))))))))))))))))))))))))))))))))
    rw [stripXmlns_add _ hrest]
    unfold parseXml
    rw [stepDecl, pRun_txt (st "\n") (by decide), stepOpWEBCLIENTADD,
        pRun_txt (st "\n    ") (by decide),
        mshStep (st "CLIENT_ADD") ts mid none (by decide)
          (fun c hc => (hts c hc).1) (fun c hc => (hmid c hc).1),
        show addText (⟨[], none, []⟩ : Frame) ([] ++ st "\n")
          = addText (⟨[], none, []⟩ : Frame) ([] ++ st "\n") from rfl]
    rw [show addText (⟨st "WEB_CLIENT_ADD", none, []⟩ : Frame) ([] ++ st "\n    ")
        = (⟨st "WEB_CLIENT_ADD", some (st "\n    "), []⟩ : Frame) from rfl,
      addChild_mk,
      pRun_txt (st "\n    ") (by decide), stepOpCLIENTADDIN]
    simp only [addText_textsome]
    rw [pRun_txt (st "\n        ") (by decide), stepOpLASTNAME,
      show addText (⟨st "CLIENT_ADD_IN", none, []⟩ : Frame) ([] ++ st "\n        ")
        = (⟨st "CLIENT_ADD_IN", some (st "\n        "), []⟩ : Frame) from rfl,
      pRun_txt ln (fun c hc => (hln c hc).1), stepClLeafLASTNAME]
    simp only [addChild_mk]
    rw [pRun_txt (st "\n        ") (by decide), stepOpFIRSTNAME]
    simp only [addText_textsome]
    rw [pRun_txt fn (fun c hc => (hfn c hc).1), stepClLeafFIRSTNAME]
    simp only [addChild_mk, pyOpt]
    rw [pRun_txt (st "\n        ") (by decide),
      pRun_opt (st "MIDNAME") ((p (st "MIDNAME")).getD []) (by decide)
        (fun c hc => (hp (st "MIDNAME") (by decide) c hc).1),
      opt_frame_norm]
    rw [pRun_txt (st "\n        ") (by decide),
      pRun_opt (st "EMAIL") ((p (st "EMAIL")).getD []) (by decide)
        (fun c hc => (hp (st "EMAIL") (by decide) c hc).1),
      opt_frame_norm]
    rw [pRun_txt (st "\n        ") (by decide),
      pRun_opt (st "PHONE") ((p (st "PHONE")).getD []) (by decide)
        (fun c hc => (hp (st "PHONE") (by decide) c hc).1),
      opt_frame_norm]
    rw [pRun_txt (st "\n        ") (by decide), stepOpBDATE]
    simp only [addText_textsome]
    rw [pRun_txt bd (fun c hc => (hbd c hc).1), stepClLeafBDATE]
    simp only [addChild_mk]
    rw [pRun_txt (st "\n        ") (by decide),
      pRun_opt (st "GENDER") ((p (st "GENDER")).getD []) (by decide)
        (fun c hc => (hp (st "GENDER") (by decide) c hc).1),
      opt_frame_norm]
    rw [pRun_txt (st "\n        ") (by decide),
      pRun_opt (st "SNILS") ((p (st "SNILS")).getD []) (by decide)
        (fun c hc => (hp (st "SNILS") (by decide) c hc).1),
      opt_frame_norm]
    rw [pRun_txt (st "\n        ") (by decide),
      pRun_opt (st "NSP") ((p (st "NSP")).getD []) (by decide)
        (fun c hc => (hp (st "NSP") (by decide) c hc).1),
      opt_frame_norm]
    rw [pRun_txt (st "\n        ") (by decide),
      pRun_opt (st "CHECKMODE") ((p (st "CHECKMODE")).getD []) (by decide)
        (fun c hc => (hp (st "CHECKMODE") (by decide) c hc).1),
      opt_frame_norm]
    rw [pRun_txt (st "\n        ") (by decide),
      pRun_opt (st "REFUSECALL") ((p (st "REFUSECALL")).getD []) (by decide)
        (fun c hc => (hp (st "REFUSECALL") (by decide) c hc).1),
      opt_frame_norm]
    rw [pRun_txt (st "\n        ") (by decide),
      pRun_opt (st "REFUSESMS") ((p (st "REFUSESMS")).getD []) (by decide)
        (fun c hc => (hp (st "REFUSESMS") (by decide) c hc).1),
      opt_frame_norm]
    rw [pRun_txt (st "\n    ") (by decide)]
    rw [stepClCLIENTADDIN _ _ _ _ _ rfl]
    simp only [addText_textsome, closeFrame_mk, addChild_mk]
    rw [pRun_txt (st "\n") (by decide)]
    rw [show (st "</WEB_CLIENT_ADD>" : PyStr) = st "</WEB_CLIENT_ADD>" ++ ([] : PyStr) from by
      simp]
    rw [stepClWEBCLIENTADD _ _ _ _ _ rfl]
    simp only [addText_textsome, closeFrame_mk]
    rw [pRun_finish]
    simp only [clientAddTree, clientAddKids, optChild, textOpt, List.nil_append,
      List.reverse_append, List.reverse_cons, List.reverse_nil,
      apply_ite List.reverse, List.append_assoc, List.append_nil,
      List.singleton_append, List.cons_append]

theorem findAllL_append (l1 l2 : List XElem) (t : PyStr) :
    findAllL (l1 ++ l2) t = findAllL l1 t ++ findAllL l2 t := by
  induction l1 with
  | nil => simp [findAllL]
  | cons c cs ih => simp [findAllL, ih, List.append_assoc]

theorem findAllL_leaf (t : PyStr) (x : Option PyStr) (k : PyStr) :
    findAllL [.mk t x []] k = if t = k then [.mk t x []] else [] := by
  by_cases h : t = k <;> simp [findAllL, findAllE, XElem.tag, h]

theorem findAllL_optChild (p : Patient) (k q : PyStr) :
    findAllL (optChild p k) q = if k = q then optChild p k else [] := by
  unfold optChild
  by_cases hkq : k = q
  · subst hkq
    by_cases hv : (p k).getD [] = [] <;> simp [hv, findAllL_leaf, findAllL]
  · by_cases hv : (p k).getD [] = [] <;> simp [hv, hkq, findAllL_leaf, findAllL]

theorem optChild_ne_iff (p : Patient) (k : PyStr) :
    optChild p k ≠ [] ↔ (p k).getD [] ≠ [] := by
  unfold optChild
  split
  · simp [*]
  · simp [*]

theorem textOpt_getD (v : PyStr) : (textOpt v).getD [] = v := by
  unfold textOpt
  split
  · simp [*]
  · simp

theorem findAll_clientAddTree (ts mid : PyStr) (p : Patient) (ln fn bd k : PyStr)
    (h1 : st "MSH" ≠ k) (h2 : st "CLIENT_ADD_IN" ≠ k)
    (hmsh : findAllE (mshTree (st "CLIENT_ADD") none ts mid) k = []) :
    findAllE (clientAddTree ts mid p ln fn bd) k
      = findAllL (clientAddKids p ln fn bd) k := by
  rcases hM : mshTree (st "CLIENT_ADD") none ts mid with ⟨mt, mx, mc⟩
  have htag : mt = st "MSH" := by
    have := congrArg XElem.tag hM
    simpa [XElem.tag] using this.symm
  have hmshL : findAllL mc k = [] := by
    rw [hM] at hmsh
    simpa [findAllE] using hmsh
  subst htag
  simp [clientAddTree, hM, findAllE, findAllL, XElem.tag, hmshL, h1, h2,
        clientAddKids, findAllL_append, List.append_assoc]

theorem kidsLASTNAME (p : Patient) (ln fn bd : PyStr) :
    findAllL (clientAddKids p ln fn bd) (st "LASTNAME") = [.mk (st "LASTNAME") (textOpt ln) []] := by
  simp [clientAddKids, findAllL_append, findAllL_leaf, findAllL_optChild,
        findAllL, findAllE, XElem.tag,
        (show (st "FIRSTNAME" : PyStr) ≠ st "LASTNAME" from by decide),
        (show (st "MIDNAME" : PyStr) ≠ st "LASTNAME" from by decide),
        (show (st "EMAIL" : PyStr) ≠ st "LASTNAME" from by decide),
        (show (st "PHONE" : PyStr) ≠ st "LASTNAME" from by decide),
        (show (st "BDATE" : PyStr) ≠ st "LASTNAME" from by decide),
        (show (st "GENDER" : PyStr) ≠ st "LASTNAME" from by decide),
        (show (st "SNILS" : PyStr) ≠ st "LASTNAME" from by decide),
        (show (st "NSP" : PyStr) ≠ st "LASTNAME" from by decide),
        (show (st "CHECKMODE" : PyStr) ≠ st "LASTNAME" from by decide),
        (show (st "REFUSECALL" : PyStr) ≠ st "LASTNAME" from by decide),
        (show (st "REFUSESMS" : PyStr) ≠ st "LASTNAME" from by decide)]

theorem kidsFIRSTNAME (p : Patient) (ln fn bd : PyStr) :
    findAllL (clientAddKids p ln fn bd) (st "FIRSTNAME") = [.mk (st "FIRSTNAME") (textOpt fn) []] := by
  simp [clientAddKids, findAllL_append, findAllL_leaf, findAllL_optChild,
        findAllL, findAllE, XElem.tag,
        (show (st "LASTNAME" : PyStr) ≠ st "FIRSTNAME" from by decide),
        (show (st "MIDNAME" : PyStr) ≠ st "FIRSTNAME" from by decide),
        (show (st "EMAIL" : PyStr) ≠ st "FIRSTNAME" from by decide),
        (show (st "PHONE" : PyStr) ≠ st "FIRSTNAME" from by decide),
        (show (st "BDATE" : PyStr) ≠ st "FIRSTNAME" from by decide),
        (show (st "GENDER" : PyStr) ≠ st "FIRSTNAME" from by decide),
        (show (st "SNILS" : PyStr) ≠ st "FIRSTNAME" from by decide),
        (show (st "NSP" : PyStr) ≠ st "FIRSTNAME" from by decide),
        (show (st "CHECKMODE" : PyStr) ≠ st "FIRSTNAME" from by decide),
        (show (st "REFUSECALL" : PyStr) ≠ st "FIRSTNAME" from by decide),
        (show (st "REFUSESMS" : PyStr) ≠ st "FIRSTNAME" from by decide)]

theorem kidsMIDNAME (p : Patient) (ln fn bd : PyStr) :
    findAllL (clientAddKids p ln fn bd) (st "MIDNAME") = optChild p (st "MIDNAME") := by
  simp [clientAddKids, findAllL_append, findAllL_leaf, findAllL_optChild,
        findAllL, findAllE, XElem.tag,
        (show (st "LASTNAME" : PyStr) ≠ st "MIDNAME" from by decide),
        (show (st "FIRSTNAME" : PyStr) ≠ st "MIDNAME" from by decide),
        (show (st "EMAIL" : PyStr) ≠ st "MIDNAME" from by decide),
        (show (st "PHONE" : PyStr) ≠ st "MIDNAME" from by decide),
        (show (st "BDATE" : PyStr) ≠ st "MIDNAME" from by decide),
        (show (st "GENDER" : PyStr) ≠ st "MIDNAME" from by decide),
        (show (st "SNILS" : PyStr) ≠ st "MIDNAME" from by decide),
        (show (st "NSP" : PyStr) ≠ st "MIDNAME" from by decide),
        (show (st "CHECKMODE" : PyStr) ≠ st "MIDNAME" from by decide),
        (show (st "REFUSECALL" : PyStr) ≠ st "MIDNAME" from by decide),
        (show (st "REFUSESMS" : PyStr) ≠ st "MIDNAME" from by decide)]

theorem kidsEMAIL (p : Patient) (ln fn bd : PyStr) :
    findAllL (clientAddKids p ln fn bd) (st "EMAIL") = optChild p (st "EMAIL") := by
  simp [clientAddKids, findAllL_append, findAllL_leaf, findAllL_optChild,
        findAllL, findAllE, XElem.tag,
        (show (st "LASTNAME" : PyStr) ≠ st "EMAIL" from by decide),
        (show (st "FIRSTNAME" : PyStr) ≠ st "EMAIL" from by decide),
        (show (st "MIDNAME" : PyStr) ≠ st "EMAIL" from by decide),
        (show (st "PHONE" : PyStr) ≠ st "EMAIL" from by decide),
        (show (st "BDATE" : PyStr) ≠ st "EMAIL" from by decide),
        (show (st "GENDER" : PyStr) ≠ st "EMAIL" from by decide),
        (show (st "SNILS" : PyStr) ≠ st "EMAIL" from by decide),
        (show (st "NSP" : PyStr) ≠ st "EMAIL" from by decide),
        (show (st "CHECKMODE" : PyStr) ≠ st "EMAIL" from by decide),
        (show (st "REFUSECALL" : PyStr) ≠ st "EMAIL" from by decide),
        (show (st "REFUSESMS" : PyStr) ≠ st "EMAIL" from by decide)]

theorem kidsPHONE (p : Patient) (ln fn bd : PyStr) :
    findAllL (clientAddKids p ln fn bd) (st "PHONE") = optChild p (st "PHONE") := by
  simp [clientAddKids, findAllL_append, findAllL_leaf, findAllL_optChild,
        findAllL, findAllE, XElem.tag,
        (show (st "LASTNAME" : PyStr) ≠ st "PHONE" from by decide),
        (show (st "FIRSTNAME" : PyStr) ≠ st "PHONE" from by decide),
        (show (st "MIDNAME" : PyStr) ≠ st "PHONE" from by decide),
        (show (st "EMAIL" : PyStr) ≠ st "PHONE" from by decide),
        (show (st "BDATE" : PyStr) ≠ st "PHONE" from by decide),
        (show (st "GENDER" : PyStr) ≠ st "PHONE" from by decide),
        (show (st "SNILS" : PyStr) ≠ st "PHONE" from by decide),
        (show (st "NSP" : PyStr) ≠ st "PHONE" from by decide),
        (show (st "CHECKMODE" : PyStr) ≠ st "PHONE" from by decide),
        (show (st "REFUSECALL" : PyStr) ≠ st "PHONE" from by decide),
        (show (st "REFUSESMS" : PyStr) ≠ st "PHONE" from by decide)]

theorem kidsBDATE (p : Patient) (ln fn bd : PyStr) :
    findAllL (clientAddKids p ln fn bd) (st "BDATE") = [.mk (st "BDATE") (textOpt bd) []] := by
  simp [clientAddKids, findAllL_append, findAllL_leaf, findAllL_optChild,
        findAllL, findAllE, XElem.tag,
        (show (st "LASTNAME" : PyStr) ≠ st "BDATE" from by decide),
        (show (st "FIRSTNAME" : PyStr) ≠ st "BDATE" from by decide),
        (show (st "MIDNAME" : PyStr) ≠ st "BDATE" from by decide),
        (show (st "EMAIL" : PyStr) ≠ st "BDATE" from by decide),
        (show (st "PHONE" : PyStr) ≠ st "BDATE" from by decide),
        (show (st "GENDER" : PyStr) ≠ st "BDATE" from by decide),
        (show (st "SNILS" : PyStr) ≠ st "BDATE" from by decide),
        (show (st "NSP" : PyStr) ≠ st "BDATE" from by decide),
        (show (st "CHECKMODE" : PyStr) ≠ st "BDATE" from by decide),
        (show (st "REFUSECALL" : PyStr) ≠ st "BDATE" from by decide),
        (show (st "REFUSESMS" : PyStr) ≠ st "BDATE" from by decide)]

theorem kidsGENDER (p : Patient) (ln fn bd : PyStr) :
    findAllL (clientAddKids p ln fn bd) (st "GENDER") = optChild p (st "GENDER") := by
  simp [clientAddKids, findAllL_append, findAllL_leaf, findAllL_optChild,
        findAllL, findAllE, XElem.tag,
        (show (st "LASTNAME" : PyStr) ≠ st "GENDER" from by decide),
        (show (st "FIRSTNAME" : PyStr) ≠ st "GENDER" from by decide),
        (show (st "MIDNAME" : PyStr) ≠ st "GENDER" from by decide),
        (show (st "EMAIL" : PyStr) ≠ st "GENDER" from by decide),
        (show (st "PHONE" : PyStr) ≠ st "GENDER" from by decide),
        (show (st "BDATE" : PyStr) ≠ st "GENDER" from by decide),
        (show (st "SNILS" : PyStr) ≠ st "GENDER" from by decide),
        (show (st "NSP" : PyStr) ≠ st "GENDER" from by decide),
        (show (st "CHECKMODE" : PyStr) ≠ st "GENDER" from by decide),
        (show (st "REFUSECALL" : PyStr) ≠ st "GENDER" from by decide),
        (show (st "REFUSESMS" : PyStr) ≠ st "GENDER" from by decide)]

theorem kidsSNILS (p : Patient) (ln fn bd : PyStr) :
    findAllL (clientAddKids p ln fn bd) (st "SNILS") = optChild p (st "SNILS") := by
  simp [clientAddKids, findAllL_append, findAllL_leaf, findAllL_optChild,
        findAllL, findAllE, XElem.tag,
        (show (st "LASTNAME" : PyStr) ≠ st "SNILS" from by decide),
        (show (st "FIRSTNAME" : PyStr) ≠ st "SNILS" from by decide),
        (show (st "MIDNAME" : PyStr) ≠ st "SNILS" from by decide),
        (show (st "EMAIL" : PyStr) ≠ st "SNILS" from by decide),
        (show (st "PHONE" : PyStr) ≠ st "SNILS" from by decide),
        (show (st "BDATE" : PyStr) ≠ st "SNILS" from by decide),
        (show (st "GENDER" : PyStr) ≠ st "SNILS" from by decide),
        (show (st "NSP" : PyStr) ≠ st "SNILS" from by decide),
        (show (st "CHECKMODE" : PyStr) ≠ st "SNILS" from by decide),
        (show (st "REFUSECALL" : PyStr) ≠ st "SNILS" from by decide),
        (show (st "REFUSESMS" : PyStr) ≠ st "SNILS" from by decide)]

theorem kidsNSP (p : Patient) (ln fn bd : PyStr) :
    findAllL (clientAddKids p ln fn bd) (st "NSP") = optChild p (st "NSP") := by
  simp [clientAddKids, findAllL_append, findAllL_leaf, findAllL_optChild,
        findAllL, findAllE, XElem.tag,
        (show (st "LASTNAME" : PyStr) ≠ st "NSP" from by decide),
        (show (st "FIRSTNAME" : PyStr) ≠ st "NSP" from by decide),
        (show (st "MIDNAME" : PyStr) ≠ st "NSP" from by decide),
        (show (st "EMAIL" : PyStr) ≠ st "NSP" from by decide),
        (show (st "PHONE" : PyStr) ≠ st "NSP" from by decide),
        (show (st "BDATE" : PyStr) ≠ st "NSP" from by decide),
        (show (st "GENDER" : PyStr) ≠ st "NSP" from by decide),
        (show (st "SNILS" : PyStr) ≠ st "NSP" from by decide),
        (show (st "CHECKMODE" : PyStr) ≠ st "NSP" from by decide),
        (show (st "REFUSECALL" : PyStr) ≠ st "NSP" from by decide),
        (show (st "REFUSESMS" : PyStr) ≠ st "NSP" from by decide)]

theorem kidsCHECKMODE (p : Patient) (ln fn bd : PyStr) :
    findAllL (clientAddKids p ln fn bd) (st "CHECKMODE") = optChild p (st "CHECKMODE") := by
  simp [clientAddKids, findAllL_append, findAllL_leaf, findAllL_optChild,
        findAllL, findAllE, XElem.tag,
        (show (st "LASTNAME" : PyStr) ≠ st "CHECKMODE" from by decide),
        (show (st "FIRSTNAME" : PyStr) ≠ st "CHECKMODE" from by decide),
        (show (st "MIDNAME" : PyStr) ≠ st "CHECKMODE" from by decide),
        (show (st "EMAIL" : PyStr) ≠ st "CHECKMODE" from by decide),
        (show (st "PHONE" : PyStr) ≠ st "CHECKMODE" from by decide),
        (show (st "BDATE" : PyStr) ≠ st "CHECKMODE" from by decide),
        (show (st "GENDER" : PyStr) ≠ st "CHECKMODE" from by decide),
        (show (st "SNILS" : PyStr) ≠ st "CHECKMODE" from by decide),
        (show (st "NSP" : PyStr) ≠ st "CHECKMODE" from by decide),
        (show (st "REFUSECALL" : PyStr) ≠ st "CHECKMODE" from by decide),
        (show (st "REFUSESMS" : PyStr) ≠ st "CHECKMODE" from by decide)]

theorem kidsREFUSECALL (p : Patient) (ln fn bd : PyStr) :
    findAllL (clientAddKids p ln fn bd) (st "REFUSECALL") = optChild p (st "REFUSECALL") := by
  simp [clientAddKids, findAllL_append, findAllL_leaf, findAllL_optChild,
        findAllL, findAllE, XElem.tag,
        (show (st "LASTNAME" : PyStr) ≠ st "REFUSECALL" from by decide),
        (show (st "FIRSTNAME" : PyStr) ≠ st "REFUSECALL" from by decide),
        (show (st "MIDNAME" : PyStr) ≠ st "REFUSECALL" from by decide),
        (show (st "EMAIL" : PyStr) ≠ st "REFUSECALL" from by decide),
        (show (st "PHONE" : PyStr) ≠ st "REFUSECALL" from by decide),
        (show (st "BDATE" : PyStr) ≠ st "REFUSECALL" from by decide),
        (show (st "GENDER" : PyStr) ≠ st "REFUSECALL" from by decide),
        (show (st "SNILS" : PyStr) ≠ st "REFUSECALL" from by decide),
        (show (st "NSP" : PyStr) ≠ st "REFUSECALL" from by decide),
        (show (st "CHECKMODE" : PyStr) ≠ st "REFUSECALL" from by decide),
        (show (st "REFUSESMS" : PyStr) ≠ st "REFUSECALL" from by decide)]

theorem kidsREFUSESMS (p : Patient) (ln fn bd : PyStr) :
    findAllL (clientAddKids p ln fn bd) (st "REFUSESMS") = optChild p (st "REFUSESMS") := by
  simp [clientAddKids, findAllL_append, findAllL_leaf, findAllL_optChild,
        findAllL, findAllE, XElem.tag,
        (show (st "LASTNAME" : PyStr) ≠ st "REFUSESMS" from by decide),
        (show (st "FIRSTNAME" : PyStr) ≠ st "REFUSESMS" from by decide),
        (show (st "MIDNAME" : PyStr) ≠ st "REFUSESMS" from by decide),
        (show (st "EMAIL" : PyStr) ≠ st "REFUSESMS" from by decide),
        (show (st "PHONE" : PyStr) ≠ st "REFUSESMS" from by decide),
        (show (st "BDATE" : PyStr) ≠ st "REFUSESMS" from by decide),
        (show (st "GENDER" : PyStr) ≠ st "REFUSESMS" from by decide),
        (show (st "SNILS" : PyStr) ≠ st "REFUSESMS" from by decide),
        (show (st "NSP" : PyStr) ≠ st "REFUSESMS" from by decide),
        (show (st "CHECKMODE" : PyStr) ≠ st "REFUSESMS" from by decide),
        (show (st "REFUSECALL" : PyStr) ≠ st "REFUSESMS" from by decide)]


/-- C5 (amended): for an XML-safe patient mapping that carries the three
required keys, the CLIENT_ADD body builds successfully and its parsed tree
contains an element for an optional field (MIDNAME, EMAIL, PHONE, GENDER,
SNILS, NSP, CHECKMODE, REFUSECALL, REFUSESMS) iff that field's value is
non-empty, while the required LASTNAME, FIRSTNAME and BDATE elements are
always present, even when their values are empty. -/
theorem c5_optional_iff (ts mid : PyStr) (p : Patient) (ln fn bd : PyStr)
    (hts : GoodText ts) (hmid : GoodText mid) (hp : PatientSafe p)
    (hL : p (st "LASTNAME") = some ln) (hF : p (st "FIRSTNAME") = some fn)
    (hB : p (st "BDATE") = some bd) :
    ∃ body tree, client_add_body ts mid p = some body ∧
      parseXml (stripXmlns body) = some tree ∧
      (∀ k ∈ optKeys, (findAllE tree k ≠ [] ↔ (p k).getD [] ≠ [])) ∧
      (∀ k ∈ reqKeys, findAllE tree k ≠ []) := by
  obtain ⟨h1, h2⟩ := client_add_parse ts mid p ln fn bd hts hmid hp hL hF hB
  refine ⟨_, _, h1, h2, ?_, ?_⟩
  · intro k hk
    simp only [optKeys, List.mem_cons, List.not_mem_nil, or_false] at hk
    rcases hk with rfl | rfl | rfl | rfl | rfl | rfl | rfl | rfl | rfl
    · rw [findAll_clientAddTree ts mid p ln fn bd (st "MIDNAME") (by decide) (by decide) rfl,
        kidsMIDNAME]
      exact optChild_ne_iff p _
    · rw [findAll_clientAddTree ts mid p ln fn bd (st "EMAIL") (by decide) (by decide) rfl,
        kidsEMAIL]
      exact optChild_ne_iff p _
    · rw [findAll_clientAddTree ts mid p ln fn bd (st "PHONE") (by decide) (by decide) rfl,
        kidsPHONE]
      exact optChild_ne_iff p _
    · rw [findAll_clientAddTree ts mid p ln fn bd (st "GENDER") (by decide) (by decide) rfl,
        kidsGENDER]
      exact optChild_ne_iff p _
    · rw [findAll_clientAddTree ts mid p ln fn bd (st "SNILS") (by decide) (by decide) rfl,
        kidsSNILS]
      exact optChild_ne_iff p _
    · rw [findAll_clientAddTree ts mid p ln fn bd (st "NSP") (by decide) (by decide) rfl,
        kidsNSP]
      exact optChild_ne_iff p _
    · rw [findAll_clientAddTree ts mid p ln fn bd (st "CHECKMODE") (by decide) (by decide) rfl,
        kidsCHECKMODE]
      exact optChild_ne_iff p _
    · rw [findAll_clientAddTree ts mid p ln fn bd (st "REFUSECALL") (by decide) (by decide) rfl,
        kidsREFUSECALL]
      exact optChild_ne_iff p _
    · rw [findAll_clientAddTree ts mid p ln fn bd (st "REFUSESMS") (by decide) (by decide) rfl,
        kidsREFUSESMS]
      exact optChild_ne_iff p _
  · intro k hk
    simp only [reqKeys, List.mem_cons, List.not_mem_nil, or_false] at hk
    rcases hk with rfl | rfl | rfl
    · rw [findAll_clientAddTree ts mid p ln fn bd (st "LASTNAME") (by decide) (by decide) rfl,
        kidsLASTNAME]
      simp
    · rw [findAll_clientAddTree ts mid p ln fn bd (st "FIRSTNAME") (by decide) (by decide) rfl,
        kidsFIRSTNAME]
      simp
    · rw [findAll_clientAddTree ts mid p ln fn bd (st "BDATE") (by decide) (by decide) rfl,
        kidsBDATE]
      simp

/-- C9 (amended): for an XML-safe patient mapping that carries the three
required keys, building the CLIENT_ADD body and parsing it back through the
client's own parse path (namespace strip + XML parse) recovers every present
protocol field's value unchanged via findtext, and yields no element for any
absent optional field. -/
theorem c9_roundtrip (ts mid : PyStr) (p : Patient) (ln fn bd : PyStr)
    (hts : GoodText ts) (hmid : GoodText mid) (hp : PatientSafe p)
    (hL : p (st "LASTNAME") = some ln) (hF : p (st "FIRSTNAME") = some fn)
    (hB : p (st "BDATE") = some bd) :
    ∃ body tree, client_add_body ts mid p = some body ∧
      parseXml (stripXmlns body) = some tree ∧
      (∀ k v, k ∈ reqKeys ++ optKeys → p k = some v → findtextD tree k [] = v) ∧
      (∀ k ∈ optKeys, p k = none → findAllE tree k = []) := by
  obtain ⟨h1, h2⟩ := client_add_parse ts mid p ln fn bd hts hmid hp hL hF hB
  refine ⟨_, _, h1, h2, ?_, ?_⟩
  · intro k v hk hpk
    simp only [reqKeys, optKeys, List.mem_append, List.mem_cons, List.not_mem_nil,
      or_false] at hk
    rcases hk with (rfl | rfl | rfl) | (rfl | rfl | rfl | rfl | rfl | rfl | rfl | rfl | rfl)
    · obtain rfl : ln = v := by rw [hL] at hpk; exact Option.some.inj hpk
      unfold findtextD
      rw [findAll_clientAddTree ts mid p ln fn bd (st "LASTNAME") (by decide) (by decide) rfl,
        kidsLASTNAME]
      simp [textOrEmpty, XElem.text, textOpt_getD]
    · obtain rfl : fn = v := by rw [hF] at hpk; exact Option.some.inj hpk
      unfold findtextD
      rw [findAll_clientAddTree ts mid p ln fn bd (st "FIRSTNAME") (by decide) (by decide) rfl,
        kidsFIRSTNAME]
      simp [textOrEmpty, XElem.text, textOpt_getD]
    · obtain rfl : bd = v := by rw [hB] at hpk; exact Option.some.inj hpk
      unfold findtextD
      rw [findAll_clientAddTree ts mid p ln fn bd (st "BDATE") (by decide) (by decide) rfl,
        kidsBDATE]
      simp [textOrEmpty, XElem.text, textOpt_getD]
    · have hopt : optChild p (st "MIDNAME") = if v = [] then [] else [.mk (st "MIDNAME") (some v) []] := by
        unfold optChild
        rw [hpk]
        simp
      unfold findtextD
      rw [findAll_clientAddTree ts mid p ln fn bd (st "MIDNAME") (by decide) (by decide) rfl,
        kidsMIDNAME, hopt]
      by_cases hv0 : v = []
      · simp [hv0]
      · simp [hv0, textOrEmpty, XElem.text]
    · have hopt : optChild p (st "EMAIL") = if v = [] then [] else [.mk (st "EMAIL") (some v) []] := by
        unfold optChild
        rw [hpk]
        simp
      unfold findtextD
      rw [findAll_clientAddTree ts mid p ln fn bd (st "EMAIL") (by decide) (by decide) rfl,
        kidsEMAIL, hopt]
      by_cases hv0 : v = []
      · simp [hv0]
      · simp [hv0, textOrEmpty, XElem.text]
    · have hopt : optChild p (st "PHONE") = if v = [] then [] else [.mk (st "PHONE") (some v) []] := by
        unfold optChild
        rw [hpk]
        simp
      unfold findtextD
      rw [findAll_clientAddTree ts mid p ln fn bd (st "PHONE") (by decide) (by decide) rfl,
        kidsPHONE, hopt]
      by_cases hv0 : v = []
      · simp [hv0]
      · simp [hv0, textOrEmpty, XElem.text]
    · have hopt : optChild p (st "GENDER") = if v = [] then [] else [.mk (st "GENDER") (some v) []] := by
        unfold optChild
        rw [hpk]
        simp
      unfold findtextD
      rw [findAll_clientAddTree ts mid p ln fn bd (st "GENDER") (by decide) (by decide) rfl,
        kidsGENDER, hopt]
      by_cases hv0 : v = []
      · simp [hv0]
      · simp [hv0, textOrEmpty, XElem.text]
    · have hopt : optChild p (st "SNILS") = if v = [] then [] else [.mk (st "SNILS") (some v) []] := by
        unfold optChild
        rw [hpk]
        simp
      unfold findtextD
      rw [findAll_clientAddTree ts mid p ln fn bd (st "SNILS") (by decide) (by decide) rfl,
        kidsSNILS, hopt]
      by_cases hv0 : v = []
      · simp [hv0]
      · simp [hv0, textOrEmpty, XElem.text]
    · have hopt : optChild p (st "NSP") = if v = [] then [] else [.mk (st "NSP") (some v) []] := by
        unfold optChild
        rw [hpk]
        simp
      unfold findtextD
      rw [findAll_clientAddTree ts mid p ln fn bd (st "NSP") (by decide) (by decide) rfl,
        kidsNSP, hopt]
      by_cases hv0 : v = []
      · simp [hv0]
      · simp [hv0, textOrEmpty, XElem.text]
    · have hopt : optChild p (st "CHECKMODE") = if v = [] then [] else [.mk (st "CHECKMODE") (some v) []] := by
        unfold optChild
        rw [hpk]
        simp
      unfold findtextD
      rw [findAll_clientAddTree ts mid p ln fn bd (st "CHECKMODE") (by decide) (by decide) rfl,
        kidsCHECKMODE, hopt]
      by_cases hv0 : v = []
      · simp [hv0]
      · simp [hv0, textOrEmpty, XElem.text]
    · have hopt : optChild p (st "REFUSECALL") = if v = [] then [] else [.mk (st "REFUSECALL") (some v) []] := by
        unfold optChild
        rw [hpk]
        simp
      unfold findtextD
      rw [findAll_clientAddTree ts mid p ln fn bd (st "REFUSECALL") (by decide) (by decide) rfl,
        kidsREFUSECALL, hopt]
      by_cases hv0 : v = []
      · simp [hv0]
      · simp [hv0, textOrEmpty, XElem.text]
    · have hopt : optChild p (st "REFUSESMS") = if v = [] then [] else [.mk (st "REFUSESMS") (some v) []] := by
        unfold optChild
        rw [hpk]
        simp
      unfold findtextD
      rw [findAll_clientAddTree ts mid p ln fn bd (st "REFUSESMS") (by decide) (by decide) rfl,
        kidsREFUSESMS, hopt]
      by_cases hv0 : v = []
      · simp [hv0]
      · simp [hv0, textOrEmpty, XElem.text]
  · intro k hk hnone
    simp only [optKeys, List.mem_cons, List.not_mem_nil, or_false] at hk
    rcases hk with rfl | rfl | rfl | rfl | rfl | rfl | rfl | rfl | rfl
    · rw [findAll_clientAddTree ts mid p ln fn bd (st "MIDNAME") (by decide) (by decide) rfl,
        kidsMIDNAME]
      unfold optChild
      rw [hnone]
      simp
    · rw [findAll_clientAddTree ts mid p ln fn bd (st "EMAIL") (by decide) (by decide) rfl,
        kidsEMAIL]
      unfold optChild
      rw [hnone]
      simp
    · rw [findAll_clientAddTree ts mid p ln fn bd (st "PHONE") (by decide) (by decide) rfl,
        kidsPHONE]
      unfold optChild
      rw [hnone]
      simp
    · rw [findAll_clientAddTree ts mid p ln fn bd (st "GENDER") (by decide) (by decide) rfl,
        kidsGENDER]
      unfold optChild
      rw [hnone]
      simp
    · rw [findAll_clientAddTree ts mid p ln fn bd (st "SNILS") (by decide) (by decide) rfl,
        kidsSNILS]
      unfold optChild
      rw [hnone]
      simp
    · rw [findAll_clientAddTree ts mid p ln fn bd (st "NSP") (by decide) (by decide) rfl,
        kidsNSP]
      unfold optChild
      rw [hnone]
      simp
    · rw [findAll_clientAddTree ts mid p ln fn bd (st "CHECKMODE") (by decide) (by decide) rfl,
        kidsCHECKMODE]
      unfold optChild
      rw [hnone]
      simp
    · rw [findAll_clientAddTree ts mid p ln fn bd (st "REFUSECALL") (by decide) (by decide) rfl,
        kidsREFUSECALL]
      unfold optChild
      rw [hnone]
      simp
    · rw [findAll_clientAddTree ts mid p ln fn bd (st "REFUSESMS") (by decide) (by decide) rfl,
        kidsREFUSESMS]
      unfold optChild
      rw [hnone]
      simp

/-- C6: a message header built for CLIENT_ADD (branch id absent) parses to a
tree containing no MSH.99 element, while a header built for
CLIENTS_CHANGE_LIST with branch id `b` parses to a tree whose MSH.99 element
carries exactly the decimal rendering of `b`. -/
theorem c6_branch_id_header (ts mid : PyStr) (b : Int)
    (hts : GoodText ts) (hmid : GoodText mid) :
    ∃ t1 t2,
      parseXml (buildMshXml (st "CLIENT_ADD") none ts mid) = some t1 ∧
      findAllE t1 (st "MSH.99") = [] ∧
      parseXml (buildMshXml (st "CLIENTS_CHANGE_LIST") (some b) ts mid) = some t2 ∧
      findAllE t2 (st "MSH.99") ≠ [] ∧
      findtextD t2 (st "MSH.99") [] = intStr b := by
  refine ⟨mshTree (st "CLIENT_ADD") none ts mid,
          mshTree (st "CLIENTS_CHANGE_LIST") (some b) ts mid, ?_, rfl, ?_, ?_, rfl⟩
  · unfold parseXml
    rw [show buildMshXml (st "CLIENT_ADD") none ts mid
        = buildMshXml (st "CLIENT_ADD") none ts mid ++ [] from by simp,
      mshStep _ _ _ _ (by decide) (fun c hc => (hts c hc).1) (fun c hc => (hmid c hc).1)]
    rfl
  · unfold parseXml
    rw [show buildMshXml (st "CLIENTS_CHANGE_LIST") (some b) ts mid
        = buildMshXml (st "CLIENTS_CHANGE_LIST") (some b) ts mid ++ [] from by simp,
      mshStep _ _ _ _ (by decide) (fun c hc => (hts c hc).1) (fun c hc => (hmid c hc).1)]
    rfl
  · rw [show findAllE (mshTree (st "CLIENTS_CHANGE_LIST") (some b) ts mid) (st "MSH.99")
        = [.mk (st "MSH.99") (some (intStr b)) []] from rfl]
    simp

/-- C6 witness: the header dichotomy at a concrete timestamp, message id and
branch id 7. -/
theorem c6_witness :
    ∃ t1 t2,
      parseXml (buildMshXml (st "CLIENT_ADD") none
        (st "20240101000000") (st "deadbeef")) = some t1 ∧
      findAllE t1 (st "MSH.99") = [] ∧
      parseXml (buildMshXml (st "CLIENTS_CHANGE_LIST") (some 7)
        (st "20240101000000") (st "deadbeef")) = some t2 ∧
      findAllE t2 (st "MSH.99") ≠ [] ∧
      findtextD t2 (st "MSH.99") [] = intStr 7 :=
  c6_branch_id_header (st "20240101000000") (st "deadbeef") 7 (by decide) (by decide)

set_option maxRecDepth 500000 in
/-- C5 counterexample: for the patient whose PHONE value is the string
`"<EMAIL>x</EMAIL>"` and whose EMAIL field is absent, the serialized body
parses to a tree that does contain an EMAIL element, refuting the claimed
equivalence for arbitrary (XML-unsafe) patient values. -/
theorem c5_counterexample :
    ((client_add_body (st "20240101000000") (st "deadbeef") c5patient).bind
        (fun b => parseXml (stripXmlns b))).map
      (fun t => (findAllE t (st "EMAIL")).isEmpty) = some false ∧
    c5patient (st "EMAIL") = none := ⟨rfl, rfl⟩

/-- C5 witness: the optional-iff and required-presence statement evaluated on
a concrete safe patient with empty FIRSTNAME and only GENDER among the
optional fields. -/
theorem c5_witness :
    ∃ body tree,
      client_add_body (st "20240101000000") (st "deadbeef") goodPatient = some body ∧
      parseXml (stripXmlns body) = some tree ∧
      (∀ k ∈ optKeys, (findAllE tree k ≠ [] ↔ (goodPatient k).getD [] ≠ [])) ∧
      (∀ k ∈ reqKeys, findAllE tree k ≠ []) :=
  c5_optional_iff (st "20240101000000") (st "deadbeef") goodPatient
    (st "Ivanov") [] (st "19900101")
    (by decide) (by decide) (by decide) (by decide) (by decide) (by decide)

set_option maxRecDepth 500000 in
/-- C9 counterexample: for the patient whose LASTNAME value is the string
`"<"`, the built body is not well-formed XML, so the client's own parse path
rejects it and no round-trip exists. -/
theorem c9_counterexample :
    ((client_add_body (st "20240101000000") (st "deadbeef") c9patient).bind
        (fun b => parseXml (stripXmlns b))).isNone = true ∧
    c9patient (st "LASTNAME") = some (st "<") := ⟨rfl, rfl⟩

/-- C9 witness: the round-trip statement evaluated on a concrete safe
patient. -/
theorem c9_witness :
    ∃ body tree,
      client_add_body (st "20240101000000") (st "deadbeef") goodPatient = some body ∧
      parseXml (stripXmlns body) = some tree ∧
      (∀ k v, k ∈ reqKeys ++ optKeys → goodPatient k = some v →
        findtextD tree k [] = v) ∧
      (∀ k ∈ optKeys, goodPatient k = none → findAllE tree k = []) :=
  c9_roundtrip (st "20240101000000") (st "deadbeef") goodPatient
    (st "Ivanov") [] (st "19900101")
    (by decide) (by decide) (by decide) (by decide) (by decide) (by decide)
